import Mathlib

/-!
# Verification of the dashboard data pipeline

A shallow embedding, in Lean 4, of the CSV ingestion, shape normalization,
filtering and metric computations of the dashboard repository
(`src/Dashboard.js`, `src/TimeSeriesDashboard.js`, and the unnamed dashboard
variant `part_001`).  JavaScript numbers are modelled as rationals (`ℚ`),
timestamps as integers (milliseconds since the epoch), and JavaScript objects
as insertion-ordered association lists.  `Date` accessors (`getDay`,
`getHours`) are modelled in UTC.  `new Date(v)` succeeds in the model exactly
when `v` is a number (epoch milliseconds); date strings in other formats are
treated as unparseable, which only narrows the set of inputs the scenario
theorems use, never the formulas.
-/

namespace Dash

/-- A dynamically typed CSV field value, as produced by `Papa.parse` with
`dynamicTyping: true`: numeric-looking fields become numbers, the literal
words `true`/`false` become booleans, everything else stays a string. -/
inductive CsvValue where
  | num (q : ℚ)
  | str (s : String)
  | bool (b : Bool)
deriving DecidableEq, Repr

/-- One parsed CSV record: a mapping from column name to dynamically typed
value, in header order (the shape `Papa.parse` with `header: true` yields). -/
abbrev RawRow := List (String × CsvValue)

/-- Split a character list on a separator character. -/
def splitOnChar (sep : Char) : List Char → List Char → List (List Char)
  | [], acc => [acc.reverse]
  | c :: cs, acc =>
    if c = sep then acc.reverse :: splitOnChar sep cs []
    else splitOnChar sep cs (c :: acc)

/-- Parse an unsigned decimal integer from a digit list. -/
def parseDigits : List Char → Option Nat
  | [] => none
  | cs =>
    if cs.all (·.isDigit) then
      some (cs.foldl (fun n c => n * 10 + (c.toNat - 48)) 0)
    else none

/-- Parse a decimal number (optional sign, optional fractional part) into a
rational, the way `dynamicTyping` recognises numeric CSV fields. -/
def parseNumber (cs : List Char) : Option ℚ :=
  let core (ds : List Char) : Option ℚ :=
    match splitOnChar '.' ds [] with
    | [whole] => (parseDigits whole).map (fun n => (n : ℚ))
    | [whole, frac] =>
      match parseDigits whole, parseDigits frac with
      | some w, some f => some ((w : ℚ) + (f : ℚ) / ((10 : ℚ) ^ frac.length))
      | _, _ => none
    | _ => none
  match cs with
  | '-' :: rest => (core rest).map (fun q => -q)
  | _ => core cs

/-- Dynamic typing of one CSV field (`Papa.parse` with `dynamicTyping`). -/
def dynType (s : String) : CsvValue :=
  if s = "true" then .bool true
  else if s = "false" then .bool false
  else match parseNumber s.data with
    | some q => .num q
    | none => .str s

/-- Parse CSV text with a header line: comma separated fields, empty lines
skipped, each data line zipped with the header (`Papa.parse` with
`header: true, dynamicTyping: true, skipEmptyLines: true`; the comma is the
delimiter the auto-detection picks for these inputs). -/
def parseCSVtext (s : String) : List RawRow :=
  match (splitOnChar '\n' s.data []).filter (· ≠ []) with
  | [] => []
  | h :: rest =>
    let header := (splitOnChar ',' h []).map List.asString
    rest.map (fun line =>
      header.zip (((splitOnChar ',' line []).map List.asString).map dynType))

/-- Look a column up in a raw row. -/
def getVal (row : RawRow) (k : String) : Option CsvValue :=
  (row.find? (·.1 = k)).map (·.2)

/-- Numeric value of a column, when the field carries a number. -/
def getNum (row : RawRow) (k : String) : Option ℚ :=
  match getVal row k with
  | some (.num q) => some q
  | _ => none

/-- Model of `new Date(v).getTime()`: defined (an epoch-millisecond instant)
exactly when `v` is a number; fractional milliseconds are truncated the way
`Date` clips its time value.  Non-numeric date strings are out of the model
(treated as an invalid date, so the row is dropped). -/
def jsDateMs (v : Option CsvValue) : Option Int :=
  match v with
  | some (.num q) => some ⌊q⌋
  | _ => none

/-- Model of `Date.prototype.getDay` (UTC): day of week, epoch day 0
(1970-01-01) was a Thursday, index 4. -/
def jsDayOfWeek (ms : Int) : Fin 7 :=
  ⟨(((ms.ediv 86400000) + 4).emod 7).toNat % 7, Nat.mod_lt _ (by norm_num)⟩

/-- Model of `Date.prototype.getHours` (UTC). -/
def jsHour (ms : Int) : Fin 24 :=
  ⟨((ms.ediv 3600000).emod 24).toNat % 24, Nat.mod_lt _ (by norm_num)⟩

/-- `Math.max(...xs)` over a nonempty list (`0` as junk value on `[]`, a case
the guarded sources never reach). -/
def jsMaxList (l : List Int) : Int :=
  match l with
  | [] => 0
  | x :: xs => xs.foldl max x

/-- `Math.min(...xs)` over a nonempty list. -/
def jsMinList (l : List Int) : Int :=
  match l with
  | [] => 0
  | x :: xs => xs.foldl min x

/-- `Number.prototype.toFixed(f)` followed by `parseFloat`: round to `f`
decimal places, ties toward positive infinity (the larger candidate), per the
ECMAScript `toFixed` specification. -/
def jsToFixed (f : ℕ) (q : ℚ) : ℚ :=
  (⌊q * (10 : ℚ) ^ f + 1 / 2⌋ : ℚ) / (10 : ℚ) ^ f

/-- One normalized wide-shape cycle record, as built by `processCSVData`
(`src/Dashboard.js` lines 114–157 and `part_001` lines 108–159).  Only the
fields the downstream metrics read are modelled; presentation-only fields
(`dateStr`, locale strings) are omitted.  Derived fields (`runtime_hours`,
`hour`, `dayOfWeek`, the boolean flags) are frozen at normalization time. -/
structure Cycle where
  device_id : String
  location : String
  startedAtMs : Int
  cycle_duration_ms : ℚ
  e_stop : Bool
  overload : Bool
  anomaly : Bool
  energy_active_kwh : Option ℚ
  health_anomaly_score : Option ℚ
  bales : Option ℚ
  dayOfWeek : Fin 7
  hour : Fin 24
deriving DecidableEq, Repr

/-- `runtime_hours: row.cycle_duration_ms / 1000 / 3600`, computed once at
normalization and read by every metric. -/
def Cycle.runtime_hours (c : Cycle) : ℚ := c.cycle_duration_ms / 1000 / 3600

/-- String content of a column (device ids, locations).  Numeric and boolean
fields are rendered only on integer values; the claims never exercise
non-string device ids. -/
def getStr (row : RawRow) (k : String) : String :=
  match getVal row k with
  | some (.str s) => s
  | some (.num q) => toString q.num
  | some (.bool b) => if b then "true" else "false"
  | none => ""

/-- Truthiness of the string-or-boolean digital-input flags:
`row.x === "True" || row.x === true` (with string literal True) in the source. -/
def flagTrue (row : RawRow) (k : String) : Bool :=
  getVal row k = some (.str "True") || getVal row k = some (.bool true)

/-- The literal `0.5` as an explicit normal-form rational. -/
def halfQ : ℚ := ⟨1, 2, by norm_num, by norm_num⟩

theorem halfQ_eq : halfQ = 1 / 2 := by
  have h := Rat.num_div_den halfQ
  have hnum : halfQ.num = 1 := rfl
  have hden : halfQ.den = 2 := rfl
  rw [hnum, hden] at h
  rw [← h]
  norm_num

/-- Normalize one raw row into a `Cycle` (the `parsed.data.map(row => ...)`
body shared by `src/Dashboard.js` and `part_001` `processCSVData`); `none`
when the `cycle_started_at` timestamp does not parse, in which case the
`.filter(row => !isNaN(row.date.getTime()))` step drops the row.  The raw
columns the spread operator carries through (`energy_active_kwh`,
`health_anomaly_score`, `productivity_bale_count_increment`) stay absent
(`none`) when the CSV lacks them, matching the `undefined` JavaScript
property.  The `anomaly` flag compares `row.health_anomaly_score > 0.5`,
which is false on an absent property exactly as on `0`.  A missing or
non-numeric `cycle_duration_ms` would make the derived `runtime_hours` `NaN`
in JavaScript; it is modelled as `0`, and no theorem feeds such a row past
the column checks. -/
def processRow (row : RawRow) : Option Cycle :=
  match jsDateMs (getVal row "cycle_started_at") with
  | none => none
  | some ts =>
    some
      { device_id := getStr row "device_id"
        location := getStr row "location"
        startedAtMs := ts
        cycle_duration_ms := (getNum row "cycle_duration_ms").getD 0
        e_stop := flagTrue row "di_e_stop_triggered"
        overload := flagTrue row "di_overload_trip"
        anomaly := decide (halfQ < (getNum row "health_anomaly_score").getD 0)
        energy_active_kwh := getNum row "energy_active_kwh"
        health_anomaly_score := getNum row "health_anomaly_score"
        bales := getNum row "productivity_bale_count_increment"
        dayOfWeek := jsDayOfWeek ts
        hour := jsHour ts }

/-- Normalization of all rows: map then drop rows with invalid timestamps. -/
def processRows (rows : List RawRow) : List Cycle :=
  rows.filterMap processRow

/-- The React state of the wide dashboards, restricted to the dataset-holding
pieces the ingestion error-handling claims are about. -/
structure DashState where
  data : List Cycle
  originalData : List Cycle
  errorMessage : String
  loading : Bool
deriving DecidableEq, Repr

/-- The `catch` branch of `processCSVData`: surface the message and clear
both datasets (`setData([]); setOriginalData([])`). -/
def errState (st : DashState) (msg : String) : DashState :=
  { st with errorMessage := msg, data := [], originalData := [], loading := false }

/-- The required wide-shape columns checked by `part_001` `processCSVData`. -/
def requiredColumns : List String :=
  ["device_id", "cycle_started_at", "cycle_duration_ms"]

/-- `requiredColumns.filter(col => !columns.includes(col))` against the keys
of the first parsed row. -/
def missingColumnsOf (rows : List RawRow) : List String :=
  requiredColumns.filter (fun c => ¬ ((rows.headD []).map (·.1)).contains c)

/-- `processCSVData` of the unnamed variant (`part_001` lines 108–159) as a
state transition on parsed rows: empty-input check, missing-columns check
against the keys of the first row, normalization, empty-result check; on
success both `data` and `originalData` are replaced, on any error the catch
branch clears them. -/
def processCSVDataP1 (rows : List RawRow) (st : DashState) : DashState :=
  if rows = [] then
    errState st "The CSV file is empty or could not be parsed"
  else if missingColumnsOf rows ≠ [] then
    errState st ("Missing required columns: " ++
      String.intercalate ", " (missingColumnsOf rows))
  else if processRows rows = [] then
    errState st "No valid data rows found after processing"
  else
    { st with data := processRows rows, originalData := processRows rows,
              errorMessage := "", loading := false }

/-- `processCSVData` of `src/Dashboard.js` (lines 114–157): no column check,
only the empty-input check. -/
def processCSVDataD (rows : List RawRow) (st : DashState) : DashState :=
  if rows = [] then
    errState st "Empty CSV file"
  else
    let processed := processRows rows
    { st with data := processed, originalData := processed,
              errorMessage := "", loading := false }

/-! ## Filter Engine -/

/-- The maximum `cycle_started_at` over a dataset:
`new Date(Math.max(...originalData.map(d => new Date(d.cycle_started_at))))`. -/
def maxStartedAt (l : List Cycle) : Int :=
  jsMaxList (l.map (·.startedAtMs))

/-- Window start of the wide-shape time filter, computed from the **original**
dataset: `now - 24h/7d/30d` in milliseconds, epoch zero on any other
selection (the `default` switch branch, which `"all"` takes). -/
def windowStartW (orig : List Cycle) (tr : String) : Int :=
  if tr = "24h" then maxStartedAt orig - 24 * 60 * 60 * 1000
  else if tr = "7d" then maxStartedAt orig - 7 * 24 * 60 * 60 * 1000
  else if tr = "30d" then maxStartedAt orig - 30 * 24 * 60 * 60 * 1000
  else 0

/-- Device-selection stage: exact match on `device_id`, `"all"` passes
everything (the filter is skipped when the selection is the string all). -/
def deviceFilter (l : List Cycle) (dev : String) : List Cycle :=
  if dev = "all" then l else l.filter (·.device_id = dev)

/-- Location-selection stage: exact match on `location`, `"all"` passes
everything. -/
def locationFilter (l : List Cycle) (loc : String) : List Cycle :=
  if loc = "all" then l else l.filter (·.location = loc)

/-- `applyFilters` of the wide dashboards (`part_001` lines 57–89; the
`src/Dashboard.js` version, lines 67–95, is the `loc = "all"` instance):
device filter, optional location filter, then the time-window filter whose
`now` is the maximum timestamp of the original dataset.  On an empty original
dataset the source returns without touching state; the function value is the
empty list. -/
def applyFiltersW (orig : List Cycle) (dev loc tr : String) : List Cycle :=
  if orig = [] then []
  else
    (locationFilter (deviceFilter orig dev) loc).filter
      (fun d => windowStartW orig tr ≤ d.startedAtMs)

/-- One pivoted time-series point of the long-shape dashboards (one device,
one timestamp, measure-name fields).  Only the measures the embedded metrics
read are modelled; each is `Option ℚ` (`none` = the measure was absent from
that point). -/
structure TSPoint where
  timestamp : Int
  durationS : Option ℚ      -- measure name cycle.durationS
  overall : Option ℚ        -- measure name cycle.overall
  energyTotalWh : Option ℚ  -- measure name energy.totalWh
  energyWorkWh : Option ℚ   -- measure name energy.workWh
  inrushMultiple : Option ℚ -- measure name inrush.multiple
  sagDepthPct : Option ℚ    -- measure name voltageSag.sagDepthPct
  unbalancePct : Option ℚ   -- measure name workCurrent.unbalancePct
  rippleMaxPct : Option ℚ   -- measure name workCurrent.rippleMaxPct
  loadFactor : Option ℚ     -- measure name workCurrent.loadFactor
  diKM : Option ℚ           -- measure name DI1_KM
  diOverloadKey : Option ℚ  -- measure name DI2_ES_Overload_Key
  diDoor : Option ℚ         -- measure name DI4_Door
  diFullError : Option ℚ    -- measure name DI8_Full_Error
  voltageU1 : Option ℚ      -- measure name voltage.U1
  temperatureAmbient : Option ℚ -- measure name temperature.ambient
  inrushMaxPeakA : Option ℚ -- measure name inrush.maxPeakA
  voltageLevelPct : Option ℚ -- measure name workVoltage.levelPct
deriving DecidableEq, Repr

/-- A default point: every measure absent. -/
def TSPoint.at (ts : Int) : TSPoint :=
  ⟨ts, none, none, none, none, none, none, none, none, none, none, none,
   none, none, none, none, none, none⟩

/-- Explicit date-range stage of `DataProcessor.applyFilters`:
`d.timestamp >= startDate && d.timestamp <= endDate`, skipped unless both
bounds are set. -/
def dateRangeFilter (data : List TSPoint) (dateRange : Option (Int × Int)) :
    List TSPoint :=
  match dateRange with
  | some (s, e) => data.filter (fun d => s ≤ d.timestamp ∧ d.timestamp ≤ e)
  | none => data

/-- Cutoff of the relative time window (`1h/3h/6h/12h`; the `default` switch
branch yields cutoff 0). -/
def relativeCutoff (now : Int) (tr : String) : Int :=
  if tr = "1h" then now - 60 * 60 * 1000
  else if tr = "3h" then now - 3 * 60 * 60 * 1000
  else if tr = "6h" then now - 6 * 60 * 60 * 1000
  else if tr = "12h" then now - 12 * 60 * 60 * 1000
  else 0

/-- `DataProcessor.applyFilters` of `src/Dashboard.js` (lines 1454–1479):
the explicit date-range filter (inclusive both ends) followed by a relative
window whose `now` is the maximum timestamp of the set the date-range filter
produced; the relative window is skipped for `"all"` or when that set is
empty. -/
def applyFiltersL (data : List TSPoint) (dateRange : Option (Int × Int))
    (tr : String) : List TSPoint :=
  if tr ≠ "all" ∧ dateRangeFilter data dateRange ≠ [] then
    (dateRangeFilter data dateRange).filter
      (fun d =>
        relativeCutoff (jsMaxList ((dateRangeFilter data dateRange).map (·.timestamp))) tr
          ≤ d.timestamp)
  else dateRangeFilter data dateRange

/-! ### Facts about `jsMaxList` -/

theorem init_le_foldl_max (as : List Int) (a : Int) : a ≤ as.foldl max a := by
  induction as generalizing a with
  | nil => exact le_refl a
  | cons b bs ih => exact le_trans (le_max_left a b) (ih (max a b))

theorem mem_le_foldl_max (as : List Int) (a x : Int) (hx : x ∈ as) :
    x ≤ as.foldl max a := by
  induction as generalizing a with
  | nil => cases hx
  | cons b bs ih =>
    rcases List.mem_cons.mp hx with h | h
    · subst h
      exact le_trans (le_max_right a x) (init_le_foldl_max bs (max a x))
    · exact ih (max a b) h

theorem le_jsMaxList {l : List Int} {x : Int} (hx : x ∈ l) : x ≤ jsMaxList l := by
  match l with
  | a :: as =>
    rcases List.mem_cons.mp hx with h | h
    · subst h; exact init_le_foldl_max as x
    · exact mem_le_foldl_max as a x h

theorem foldl_max_mem (as : List Int) (a : Int) : as.foldl max a ∈ a :: as := by
  induction as generalizing a with
  | nil => simp [List.foldl]
  | cons b bs ih =>
    have h := ih (max a b)
    rcases List.mem_cons.mp h with h | h
    · rcases max_choice a b with hm | hm <;> rw [List.foldl, h, hm] <;> simp
    · simp only [List.foldl]
      exact List.mem_cons_of_mem _ (List.mem_cons_of_mem _ h)

theorem jsMaxList_mem {l : List Int} (h : l ≠ []) : jsMaxList l ∈ l := by
  match l with
  | a :: as => exact foldl_max_mem as a

theorem jsMaxList_le_of_subset {l₁ l₂ : List Int} (h₁ : l₁ ≠ [])
    (hsub : ∀ x ∈ l₁, x ∈ l₂) : jsMaxList l₁ ≤ jsMaxList l₂ :=
  le_jsMaxList (hsub _ (jsMaxList_mem h₁))

theorem maxStartedAt_le_of_subset {F D : List Cycle} (hF : F ≠ [])
    (hsub : ∀ c ∈ F, c ∈ D) : maxStartedAt F ≤ maxStartedAt D := by
  apply jsMaxList_le_of_subset
  · simpa using hF
  · intro x hx
    rcases List.mem_map.mp hx with ⟨c, hc, rfl⟩
    exact List.mem_map.mpr ⟨c, hsub c hc, rfl⟩

theorem windowStartW_mono {F D : List Cycle} (hF : F ≠ [])
    (hsub : ∀ c ∈ F, c ∈ D) (tr : String) :
    windowStartW F tr ≤ windowStartW D tr := by
  have hmax := maxStartedAt_le_of_subset hF hsub
  unfold windowStartW
  split_ifs <;> omega

theorem relativeCutoff_mono {n m : Int} (h : n ≤ m) (tr : String) :
    relativeCutoff n tr ≤ relativeCutoff m tr := by
  unfold relativeCutoff
  split_ifs <;> omega

/-- Membership characterization of the wide-shape filter: a cycle is kept
iff it is in the original dataset, matches the device selection, matches the
location selection, and its timestamp is at or after the window start. -/
theorem mem_applyFiltersW {D : List Cycle} {dev loc tr : String} {c : Cycle} :
    c ∈ applyFiltersW D dev loc tr ↔
      c ∈ D ∧ (dev = "all" ∨ c.device_id = dev) ∧ (loc = "all" ∨ c.location = loc) ∧
        windowStartW D tr ≤ c.startedAtMs := by
  unfold applyFiltersW deviceFilter locationFilter
  by_cases h0 : D = []
  · simp [h0]
  · by_cases hd : dev = "all" <;> by_cases hl : loc = "all" <;>
      simp [h0, hd, hl, List.mem_filter] <;> tauto

theorem applyFiltersW_of_ne {orig : List Cycle} {dev loc tr : String}
    (h : orig ≠ []) :
    applyFiltersW orig dev loc tr =
      (locationFilter (deviceFilter orig dev) loc).filter
        (fun d => windowStartW orig tr ≤ d.startedAtMs) := by
  unfold applyFiltersW
  rw [if_neg h]

theorem applyFiltersW_idem (D : List Cycle) (dev loc tr : String) :
    applyFiltersW (applyFiltersW D dev loc tr) dev loc tr =
      applyFiltersW D dev loc tr := by
  by_cases hF : applyFiltersW D dev loc tr = []
  · rw [hF]
    simp [applyFiltersW]
  · have hmem : ∀ c ∈ applyFiltersW D dev loc tr,
        c ∈ D ∧ (dev = "all" ∨ c.device_id = dev) ∧ (loc = "all" ∨ c.location = loc) ∧
          windowStartW D tr ≤ c.startedAtMs := fun c hc => mem_applyFiltersW.mp hc
    have hws : windowStartW (applyFiltersW D dev loc tr) tr ≤ windowStartW D tr :=
      windowStartW_mono hF (fun c hc => (hmem c hc).1) tr
    rw [applyFiltersW_of_ne hF]
    have hdev : deviceFilter (applyFiltersW D dev loc tr) dev =
        applyFiltersW D dev loc tr := by
      unfold deviceFilter
      split
      · rfl
      · next hd =>
        apply List.filter_eq_self.mpr
        intro c hc
        rcases (hmem c hc).2.1 with h | h
        · exact absurd h hd
        · simpa using h
    have hloc : locationFilter (applyFiltersW D dev loc tr) loc =
        applyFiltersW D dev loc tr := by
      unfold locationFilter
      split
      · rfl
      · next hl =>
        apply List.filter_eq_self.mpr
        intro c hc
        rcases (hmem c hc).2.2.1 with h | h
        · exact absurd h hl
        · simpa using h
    rw [hdev, hloc]
    apply List.filter_eq_self.mpr
    intro c hc
    have := (hmem c hc).2.2.2
    simpa using le_trans hws this

/-- Membership characterization of the long-shape date-range stage. -/
theorem mem_dateRangeFilter {data : List TSPoint} {dr : Option (Int × Int)}
    {c : TSPoint} :
    c ∈ dateRangeFilter data dr ↔
      c ∈ data ∧ (∀ s e, dr = some (s, e) → s ≤ c.timestamp ∧ c.timestamp ≤ e) := by
  unfold dateRangeFilter
  match dr with
  | none => simp
  | some (s, e) => simp [List.mem_filter]

theorem dateRangeFilter_nil (dr : Option (Int × Int)) :
    dateRangeFilter [] dr = [] := by
  match dr with
  | none => rfl
  | some (s, e) => rfl

theorem dateRangeFilter_eq_self {l : List TSPoint} {dr : Option (Int × Int)}
    (h : ∀ c ∈ l, ∀ s e, dr = some (s, e) → s ≤ c.timestamp ∧ c.timestamp ≤ e) :
    dateRangeFilter l dr = l := by
  match dr with
  | none => rfl
  | some (s, e) =>
    apply List.filter_eq_self.mpr
    intro c hc
    simpa using h c hc s e rfl

theorem applyFiltersL_all (data : List TSPoint) (dr : Option (Int × Int)) :
    applyFiltersL data dr "all" = dateRangeFilter data dr := by
  unfold applyFiltersL
  simp

theorem applyFiltersL_nil (dr : Option (Int × Int)) (tr : String) :
    applyFiltersL [] dr tr = [] := by
  unfold applyFiltersL
  rw [dateRangeFilter_nil]
  simp

theorem applyFiltersL_of_pos {data : List TSPoint} {dr : Option (Int × Int)}
    {tr : String} (htr : tr ≠ "all") (hne : dateRangeFilter data dr ≠ []) :
    applyFiltersL data dr tr =
      (dateRangeFilter data dr).filter
        (fun d =>
          relativeCutoff (jsMaxList ((dateRangeFilter data dr).map (·.timestamp))) tr
            ≤ d.timestamp) := by
  unfold applyFiltersL
  rw [if_pos ⟨htr, hne⟩]

theorem applyFiltersL_idem (data : List TSPoint) (dr : Option (Int × Int))
    (tr : String) :
    applyFiltersL (applyFiltersL data dr tr) dr tr = applyFiltersL data dr tr := by
  have hself : ∀ l : List TSPoint, (∀ c ∈ l, c ∈ dateRangeFilter data dr) →
      dateRangeFilter l dr = l := by
    intro l hl
    apply dateRangeFilter_eq_self
    intro c hc s e hdr
    exact (mem_dateRangeFilter.mp (hl c hc)).2 s e hdr
  by_cases htr : tr = "all"
  · subst htr
    rw [applyFiltersL_all, applyFiltersL_all]
    exact hself _ (fun c hc => hc)
  · by_cases hRnil : applyFiltersL data dr tr = []
    · rw [hRnil, applyFiltersL_nil]
    · have hf1 : dateRangeFilter data dr ≠ [] := by
        intro h
        apply hRnil
        unfold applyFiltersL
        rw [h]
        simp
      have hR : applyFiltersL data dr tr =
          (dateRangeFilter data dr).filter
            (fun d =>
              relativeCutoff (jsMaxList ((dateRangeFilter data dr).map (·.timestamp))) tr
                ≤ d.timestamp) := applyFiltersL_of_pos htr hf1
      have hRsub1 : ∀ c ∈ applyFiltersL data dr tr, c ∈ dateRangeFilter data dr := by
        intro c hc
        rw [hR] at hc
        exact (List.mem_filter.mp hc).1
      have hstage1 : dateRangeFilter (applyFiltersL data dr tr) dr =
          applyFiltersL data dr tr := hself _ hRsub1
      have hne2 : dateRangeFilter (applyFiltersL data dr tr) dr ≠ [] := by
        rw [hstage1]; exact hRnil
      rw [applyFiltersL_of_pos htr hne2, hstage1]
      have hnow : jsMaxList ((applyFiltersL data dr tr).map (·.timestamp)) ≤
          jsMaxList ((dateRangeFilter data dr).map (·.timestamp)) := by
        apply jsMaxList_le_of_subset
        · simpa using hRnil
        · intro x hx
          rcases List.mem_map.mp hx with ⟨c, hc, rfl⟩
          exact List.mem_map.mpr ⟨c, hRsub1 c hc, rfl⟩
      have hcut := relativeCutoff_mono hnow tr
      apply List.filter_eq_self.mpr
      intro c hc
      have hcts : relativeCutoff
          (jsMaxList ((dateRangeFilter data dr).map (·.timestamp))) tr ≤ c.timestamp := by
        have hc2 := hc
        rw [hR] at hc2
        simpa using (List.mem_filter.mp hc2).2
      simpa using le_trans hcut hcts

/-- A concrete normalized cycle used to instantiate hypothesis-bearing
theorems. -/
def sampleCycle : Cycle :=
  { device_id := "M1"
    location := "L1"
    startedAtMs := 3600000
    cycle_duration_ms := 3600000
    e_stop := false
    overload := false
    anomaly := false
    energy_active_kwh := some 1
    health_anomaly_score := some 0
    bales := some 0
    dayOfWeek := ⟨4, by norm_num⟩
    hour := ⟨1, by norm_num⟩ }

/-- **C1.** Applying a filter criteria (device selection, optional location
selection, time-range selection) twice yields the same result as applying it
once, for both filter implementations: the wide-shape `applyFilters`
(`part_001` lines 57–89 and `src/Dashboard.js` lines 67–95) and the long-shape
`DataProcessor.applyFilters` (`src/Dashboard.js` lines 1454–1479). -/
theorem C1_filter_idempotent :
    (∀ (D : List Cycle) (dev loc tr : String),
      applyFiltersW (applyFiltersW D dev loc tr) dev loc tr =
        applyFiltersW D dev loc tr) ∧
    (∀ (data : List TSPoint) (dr : Option (Int × Int)) (tr : String),
      applyFiltersL (applyFiltersL data dr tr) dr tr =
        applyFiltersL data dr tr) :=
  ⟨applyFiltersW_idem, applyFiltersL_idem⟩

/-- **C2.** For a non-empty original dataset, the `now`
reference of the time-window filter is the maximum timestamp of the original (unfiltered) dataset; the
window start is `now` minus 24 hours / 7 days / 30 days in milliseconds
according to the selection, and epoch zero for `"all"`; and a record is kept
iff it belongs to the dataset, matches the device and location selections,
and its timestamp is `>=` the window start (inclusive lower bound, no upper
bound). -/
theorem C2_time_window (D : List Cycle) (h : D ≠ []) :
    (maxStartedAt D ∈ D.map (·.startedAtMs) ∧
      ∀ c ∈ D, c.startedAtMs ≤ maxStartedAt D) ∧
    windowStartW D "24h" = maxStartedAt D - 86400000 ∧
    windowStartW D "7d" = maxStartedAt D - 604800000 ∧
    windowStartW D "30d" = maxStartedAt D - 2592000000 ∧
    windowStartW D "all" = 0 ∧
    ∀ (dev loc tr : String) (c : Cycle),
      c ∈ applyFiltersW D dev loc tr ↔
        c ∈ D ∧ (dev = "all" ∨ c.device_id = dev) ∧ (loc = "all" ∨ c.location = loc) ∧
          windowStartW D tr ≤ c.startedAtMs := by
  refine ⟨⟨?_, ?_⟩, ?_, ?_, ?_, ?_, ?_⟩
  · exact jsMaxList_mem (by simpa using h)
  · intro c hc
    exact le_jsMaxList (List.mem_map.mpr ⟨c, hc, rfl⟩)
  · simp [windowStartW]
  · simp [windowStartW]
  · simp [windowStartW]
  · simp [windowStartW]
  · intro dev loc tr c
    exact mem_applyFiltersW

/-- Witness for C2 at a concrete one-element dataset. -/
theorem C2_time_window_witness :
    (maxStartedAt [sampleCycle] ∈ [sampleCycle].map (·.startedAtMs) ∧
      ∀ c ∈ [sampleCycle], c.startedAtMs ≤ maxStartedAt [sampleCycle]) ∧
    windowStartW [sampleCycle] "24h" = maxStartedAt [sampleCycle] - 86400000 ∧
    windowStartW [sampleCycle] "7d" = maxStartedAt [sampleCycle] - 604800000 ∧
    windowStartW [sampleCycle] "30d" = maxStartedAt [sampleCycle] - 2592000000 ∧
    windowStartW [sampleCycle] "all" = 0 ∧
    ∀ (dev loc tr : String) (c : Cycle),
      c ∈ applyFiltersW [sampleCycle] dev loc tr ↔
        c ∈ [sampleCycle] ∧ (dev = "all" ∨ c.device_id = dev) ∧
          (loc = "all" ∨ c.location = loc) ∧
          windowStartW [sampleCycle] tr ≤ c.startedAtMs :=
  C2_time_window [sampleCycle] (by simp)

/-! ## Metrics Engine -/

/-- The user-adjustable alert thresholds (their `useState` defaults). -/
structure Thresholds where
  cycleDuration : ℚ := 25
  inrushMultiple : ℚ := 8
  voltageSag : ℚ := 60
  currentUnbalance : ℚ := 15
  ripple : ℚ := 70
  lifetimeCycleThreshold : ℚ := 50000
  mtbfThresholdHours : ℚ := 100
deriving DecidableEq, Repr

/-- The default thresholds object. -/
def defaultThresholds : Thresholds := {}

/-- The exact lodash `_.sumBy` over a possibly absent numeric field: absent
(`undefined`) values are skipped element-wise, and the result is itself
`undefined` (`none`) when **no** element carries the field. -/
def jsSumBy (l : List (Option ℚ)) : Option ℚ :=
  l.foldl
    (fun acc v =>
      match acc, v with
      | none, v => v
      | some a, none => some a
      | some a, some b => some (a + b))
    none

/-- `_.sumBy(l, field)` collapsed to a total: absent fields contribute `0`.
Because lodash skips `undefined` element-wise, this agrees with `jsSumBy`
whenever at least one element carries the field; an all-absent column yields
`undefined` in JavaScript instead of `0`.  Used only for the long-dashboard
fields where that case cannot reach a member access: `cycle.durationS` is
present on every cycle summary by construction of the pivot, and the energy
sums there are `|| 0`-guarded. -/
def sumByQ (l : List (Option ℚ)) : ℚ :=
  (l.map (·.getD 0)).sum

/-- `_.meanBy(l, field) || 0` (lodash): arithmetic mean, `0` on `[]`
(division by zero in `ℚ` is `0`, matching the `|| 0` guard on `NaN`). -/
def meanByQ (l : List (Option ℚ)) : ℚ :=
  sumByQ l / l.length

/-! ### Wide-shape fleet KPIs (`fleetMetrics`, `src/Dashboard.js` 180–207;
`kpis`, `part_001` 210–248, uses the same utilization formula) -/

/-- `totalRuntime` as the lodash sumBy of the runtime_hours field. -/
def totalRuntimeW (data : List Cycle) : ℚ :=
  (data.map (·.runtime_hours)).sum

/-- `uniqueDevices` as the lodash uniqBy count of device_id. -/
def uniqueDeviceCount (data : List Cycle) : ℕ :=
  (data.map (·.device_id)).dedup.length

/-- `hoursInWindow = Math.max((latestDate - earliestDate) / (1000*60*60), 1)`
over the filtered set. -/
def hoursInWindowW (data : List Cycle) : ℚ :=
  max (((jsMaxList (data.map (·.startedAtMs)) -
          jsMinList (data.map (·.startedAtMs)) : Int) : ℚ) / (1000 * 60 * 60)) 1

/-- `utilizationRate = (totalRuntime / (uniqueDevices * hoursInWindow)) * 100`. -/
def utilizationRateW (data : List Cycle) : ℚ :=
  totalRuntimeW data / (uniqueDeviceCount data * hoursInWindowW data) * 100

/-- The fleet KPI record the wide dashboards render (numeric content of the
`toFixed` strings). -/
structure FleetW where
  totalRuntime : ℚ
  utilizationRate : ℚ
  totalCycles : ℕ
  errorCount : ℕ
  uniqueDevices : ℕ
  avgCyclesPerMachine : ℚ
  totalEnergy : ℚ
  totalBales : ℚ
deriving DecidableEq, Repr

/-- `fleetMetrics` (`src/Dashboard.js` 180–207; `kpis` in `part_001`
210–248 shares the formulas, including the same unguarded line):
`.ok none` models the `{}` returned for an empty filtered set, and
`.error` models the `TypeError` raised by `totalEnergy.toFixed(1)` when the
dataset has no `energy_active_kwh` column at all, so that `_.sumBy` returned
`undefined` (there is no `|| 0` guard on that line, unlike the adjacent
`totalBales`).  `utilizationRate` is
`Math.min(utilizationRate, 100).toFixed(1)`. -/
def fleetMetricsW (data : List Cycle) : Except String (Option FleetW) :=
  if data = [] then .ok none
  else
    match jsSumBy (data.map (·.energy_active_kwh)) with
    | none => .error "TypeError: totalEnergy is undefined, toFixed raises"
    | some totalEnergy =>
      .ok (some
        { totalRuntime := jsToFixed 1 (totalRuntimeW data)
          utilizationRate := jsToFixed 1 (min (utilizationRateW data) 100)
          totalCycles := data.length
          errorCount := (data.filter (fun d => d.e_stop || d.overload)).length
          uniqueDevices := uniqueDeviceCount data
          avgCyclesPerMachine := jsToFixed 1 ((data.length : ℚ) / uniqueDeviceCount data)
          totalEnergy := jsToFixed 1 totalEnergy
          totalBales := (jsSumBy (data.map (·.bales))).getD 0 })

/-! ### Long-shape fleet KPIs (`MetricsCalculator.calculateFleetKPIs`,
`src/Dashboard.js` 1483–1523) -/

/-- The fleet KPI record of the long dashboard (numeric content of the
`toFixed` strings). -/
structure FleetL where
  totalCycles : ℕ
  avgCycleDuration : ℚ
  totalEnergy : ℚ
  errorCount : ℕ
  eStopCount : ℕ
  doorViolations : ℕ
  totalRuntime : ℚ
  utilizationRate : ℚ
  idleTime : ℚ
  timeWindowHours : ℚ
  avgEnergyPerCycle : ℚ
  avgInrushPeak : ℚ
  avgLoadFactor : ℚ
  avgVoltageLevel : ℚ
deriving DecidableEq, Repr

/-- `totalRuntime`: the lodash sumBy of cycle.durationS over 3600 (hours). -/
def totalRuntimeL (cycles : List TSPoint) : ℚ :=
  sumByQ (cycles.map (·.durationS)) / 3600

/-- `timeWindowHours`: timestamp span of the filtered cycles in hours
(`1` for an empty timestamp list; the function is only reached with
`cycles.length > 0`). -/
def timeWindowHoursL (cycles : List TSPoint) : ℚ :=
  if cycles = [] then 1
  else
    ((jsMaxList (cycles.map (·.timestamp)) -
       jsMinList (cycles.map (·.timestamp)) : Int) : ℚ) / (1000 * 60 * 60)

/-- `utilizationRate = timeWindowHours > 0 ? (totalRuntime / timeWindowHours) * 100 : 0`
— **not** clamped to 100. -/
def utilizationRateL (cycles : List TSPoint) : ℚ :=
  if 0 < timeWindowHoursL cycles then totalRuntimeL cycles / timeWindowHoursL cycles * 100
  else 0

/-- `MetricsCalculator.calculateFleetKPIs` (`src/Dashboard.js` 1483–1523);
`none` models the `{}` returned when the cycle list is empty. -/
def calculateFleetKPIs (cycles realTime : List TSPoint) (_th : Thresholds) :
    Option FleetL :=
  if cycles = [] then none
  else
    some
      { totalCycles := cycles.length
        avgCycleDuration := jsToFixed 2 (meanByQ (cycles.map (·.durationS)))
        totalEnergy := jsToFixed 2 (sumByQ (cycles.map (·.energyTotalWh)))
        errorCount := (cycles.filter (·.overall = some 1)).length
        eStopCount := (realTime.filter (·.diOverloadKey = some 1)).length
        doorViolations :=
          (realTime.filter (fun r => r.diDoor = some 1 ∧ r.diKM = some 1)).length
        totalRuntime := jsToFixed 2 (totalRuntimeL cycles)
        utilizationRate := jsToFixed 1 (utilizationRateL cycles)
        idleTime := jsToFixed 2 (max 0 (timeWindowHoursL cycles - totalRuntimeL cycles))
        timeWindowHours := jsToFixed 2 (timeWindowHoursL cycles)
        avgEnergyPerCycle :=
          if 0 < cycles.length then
            jsToFixed 3 (sumByQ (cycles.map (·.energyTotalWh)) / cycles.length)
          else 0
        avgInrushPeak := jsToFixed 2 (meanByQ (cycles.map (·.inrushMaxPeakA)))
        avgLoadFactor := jsToFixed 2 (meanByQ (cycles.map (·.loadFactor)))
        avgVoltageLevel := jsToFixed 2 (meanByQ (cycles.map (·.voltageLevelPct))) }

/-! ### Bounds on the rounding of displayed values -/

theorem jsToFixed_intCast (f : ℕ) (n : ℤ) : jsToFixed f ((n : ℚ)) = n := by
  unfold jsToFixed
  have h : (n : ℚ) * 10 ^ f = ((n * 10 ^ f : ℤ) : ℚ) := by push_cast; ring
  rw [h, add_comm, Int.floor_add_int]
  have h0 : ⌊(1 / 2 : ℚ)⌋ = 0 := by
    apply Int.floor_eq_zero_iff.mpr
    constructor <;> norm_num
  rw [h0]
  push_cast
  field_simp

theorem jsToFixed_nonneg (f : ℕ) (q : ℚ) (h : 0 ≤ q) : 0 ≤ jsToFixed f q := by
  unfold jsToFixed
  apply div_nonneg _ (by positivity)
  have : (0 : ℤ) ≤ ⌊q * 10 ^ f + 1 / 2⌋ := by
    have h0 : ⌊(0 : ℚ)⌋ ≤ ⌊q * 10 ^ f + 1 / 2⌋ := Int.floor_le_floor (by positivity)
    simpa using h0
  exact_mod_cast this

theorem jsToFixed_le_intBound (f : ℕ) (q : ℚ) (B : ℤ) (h : q ≤ B) :
    jsToFixed f q ≤ B := by
  unfold jsToFixed
  rw [div_le_iff₀ (by positivity : (0 : ℚ) < 10 ^ f)]
  have hp : (0 : ℚ) < 10 ^ f := by positivity
  have h1 : q * 10 ^ f + 1 / 2 ≤ (B : ℚ) * 10 ^ f + 1 / 2 := by nlinarith
  have h2 : ⌊q * 10 ^ f + 1 / 2⌋ ≤ ⌊(B : ℚ) * 10 ^ f + 1 / 2⌋ := Int.floor_le_floor h1
  have h3 : ⌊(B : ℚ) * 10 ^ f + 1 / 2⌋ = B * 10 ^ f := by
    have hc : (B : ℚ) * 10 ^ f = ((B * 10 ^ f : ℤ) : ℚ) := by push_cast; ring
    rw [hc, add_comm, Int.floor_add_int]
    have h0 : ⌊(1 / 2 : ℚ)⌋ = 0 := by
      apply Int.floor_eq_zero_iff.mpr
      constructor <;> norm_num
    omega
  calc ((⌊q * 10 ^ f + 1 / 2⌋ : ℤ) : ℚ) ≤ ((B * 10 ^ f : ℤ) : ℚ) := by
        exact_mod_cast le_trans h2 (le_of_eq h3)
    _ = (B : ℚ) * 10 ^ f := by push_cast; ring

/-- **C3 counterexample.**  The long-dashboard fleet-KPI computation
(`MetricsCalculator.calculateFleetKPIs`, one of the sources of the claim)
does **not** clamp `utilizationRate`: two cycles of 7200 s runtime whose
timestamps span one hour yield a utilization rate of 400, outside `[0, 100]`. -/
theorem C3_counterexample :
    (calculateFleetKPIs
        [{ TSPoint.at 0 with durationS := some 7200 },
         { TSPoint.at 3600000 with durationS := some 7200 }] []
        defaultThresholds).map (·.utilizationRate) = some 400 ∧
      ¬ (400 : ℚ) ≤ 100 := by
  constructor
  · have h400 : jsToFixed 1 (400 : ℚ) = 400 := by
      have := jsToFixed_intCast 1 400
      norm_num at this
      exact_mod_cast this
    norm_num [calculateFleetKPIs, utilizationRateL, timeWindowHoursL, totalRuntimeL,
      sumByQ, jsMaxList, jsMinList, TSPoint.at, h400]
    exact ⟨_, ⟨by simp, rfl⟩, rfl⟩
  · norm_num

/-- **C3 (amended).**  The fleet KPI `utilizationRate` of the wide dashboards
(`fleetMetrics` in `src/Dashboard.js`, `kpis` in `part_001`) lies in
`[0, 100]` for every non-empty dataset with non-negative cycle durations,
thanks to the `Math.min(..., 100)` clamp; the long-dashboard
`calculateFleetKPIs` has no such clamp (see the counterexample). -/
theorem C3_wide_utilization_clamped (data : List Cycle) (h : data ≠ [])
    (hd : ∀ c ∈ data, 0 ≤ c.cycle_duration_ms) (kp : FleetW)
    (hk : fleetMetricsW data = .ok (some kp)) :
    0 ≤ kp.utilizationRate ∧ kp.utilizationRate ≤ 100 := by
  have hkp : kp.utilizationRate = jsToFixed 1 (min (utilizationRateW data) 100) := by
    unfold fleetMetricsW at hk
    rw [if_neg h] at hk
    cases hE : jsSumBy (data.map (·.energy_active_kwh)) with
    | none =>
      rw [hE] at hk
      simp at hk
    | some e =>
      rw [hE] at hk
      simp only [Except.ok.injEq, Option.some.injEq] at hk
      rw [← hk]
  have hT : 0 ≤ totalRuntimeW data := by
    apply List.sum_nonneg
    intro x hx
    rcases List.mem_map.mp hx with ⟨c, hc, rfl⟩
    have := hd c hc
    unfold Cycle.runtime_hours
    positivity
  have hu : 1 ≤ (uniqueDeviceCount data : ℚ) := by
    have : uniqueDeviceCount data ≠ 0 := by
      unfold uniqueDeviceCount
      simp only [ne_eq, List.length_eq_zero, List.dedup_eq_nil, List.map_eq_nil_iff]
      exact h
    exact_mod_cast Nat.one_le_iff_ne_zero.mpr this
  have hh : 1 ≤ hoursInWindowW data := le_max_right _ _
  have hrate : 0 ≤ utilizationRateW data := by
    unfold utilizationRateW
    apply mul_nonneg _ (by norm_num)
    apply div_nonneg hT
    nlinarith
  rw [hkp]
  constructor
  · exact jsToFixed_nonneg _ _ (le_min hrate (by norm_num))
  · have := jsToFixed_le_intBound 1 (min (utilizationRateW data) 100) 100
      (min_le_right _ _)
    exact_mod_cast this

/-- The fleet KPI record `fleetMetrics` produces on `[sampleCycle]`. -/
def kpSample : FleetW :=
  { totalRuntime := 1
    utilizationRate := 100
    totalCycles := 1
    errorCount := 0
    uniqueDevices := 1
    avgCyclesPerMachine := 1
    totalEnergy := 1
    totalBales := 0 }

/-- Witness for the amended C3 at a concrete one-element dataset. -/
theorem C3_wide_utilization_clamped_witness :
    fleetMetricsW [sampleCycle] = .ok (some kpSample) ∧
      0 ≤ kpSample.utilizationRate ∧ kpSample.utilizationRate ≤ 100 := by
  have h1 : jsToFixed 1 (1 : ℚ) = 1 := by
    have := jsToFixed_intCast 1 1
    norm_num at this
    exact_mod_cast this
  have h100 : jsToFixed 1 (100 : ℚ) = 100 := by
    have := jsToFixed_intCast 1 100
    norm_num at this
    exact_mod_cast this
  have heval : fleetMetricsW [sampleCycle] = .ok (some kpSample) := by
    norm_num [fleetMetricsW, jsSumBy, totalRuntimeW, utilizationRateW,
      uniqueDeviceCount, hoursInWindowW, jsMaxList, jsMinList, sampleCycle,
      Cycle.runtime_hours, kpSample, h1, h100]
  exact ⟨heval,
    C3_wide_utilization_clamped [sampleCycle] (by simp)
      (by intro c hc; simp at hc; subst hc; norm_num [sampleCycle]) kpSample heval⟩

/-! ## Round-trip scenario (C9) -/

/-- The round-trip scenario CSV text: the wide-shape header and two rows for
device `M1` with durations 3 600 000 ms and 7 200 000 ms at two timestamps
one hour apart (epoch-millisecond timestamps 0 and 3 600 000). -/
def csv9Text : String :=
  "device_id,cycle_started_at,cycle_duration_ms\nM1,0,3600000\nM1,3600000,7200000"

/-- The first normalized cycle of the round-trip scenario: the CSV has only
the three required columns, so every optional property is absent. -/
def cyc9a : Cycle :=
  { device_id := "M1", location := "", startedAtMs := 0,
    cycle_duration_ms := 3600000, e_stop := false, overload := false,
    anomaly := false, energy_active_kwh := none, health_anomaly_score := none,
    bales := none, dayOfWeek := ⟨4, by norm_num⟩, hour := ⟨0, by norm_num⟩ }

/-- The second normalized cycle of the round-trip scenario. -/
def cyc9b : Cycle :=
  { device_id := "M1", location := "", startedAtMs := 3600000,
    cycle_duration_ms := 7200000, e_stop := false, overload := false,
    anomaly := false, energy_active_kwh := none, health_anomaly_score := none,
    bales := none, dayOfWeek := ⟨4, by norm_num⟩, hour := ⟨1, by norm_num⟩ }

/-- **C9 (code bug).**  On the exact scenario CSV text both cited fleet-KPI
computations throw before producing the KPI object: the dataset carries no
`energy_active_kwh` column, so `_.sumBy` returns `undefined` and the
unguarded `totalEnergy.toFixed(1)` (`src/Dashboard.js` 204, `part_001` 236)
raises a `TypeError`.  The quantities the claim asserts are exactly what the
computation derives up to that line — `totalRuntimeHours = 3`,
`totalCycles = 2`, `windowHours = max(1, 1) = 1` and a clamped utilization
rate of `100` — so the spec scenario is the evident intent and the missing
`|| 0` guard (present on the adjacent `totalBales` line of the same
function) the slip. -/
theorem C9_round_trip_throws :
    fleetMetricsW (processRows (parseCSVtext csv9Text)) =
        .error "TypeError: totalEnergy is undefined, toFixed raises" ∧
      totalRuntimeW (processRows (parseCSVtext csv9Text)) = 3 ∧
      (processRows (parseCSVtext csv9Text)).length = 2 ∧
      hoursInWindowW (processRows (parseCSVtext csv9Text)) = 1 ∧
      jsToFixed 1
          (min (utilizationRateW (processRows (parseCSVtext csv9Text))) 100) =
        100 := by
  have hrows : processRows (parseCSVtext csv9Text) = [cyc9a, cyc9b] := by decide
  have hu : uniqueDeviceCount [cyc9a, cyc9b] = 1 := by decide
  have ht : totalRuntimeW [cyc9a, cyc9b] = 3 := by
    norm_num [totalRuntimeW, Cycle.runtime_hours, cyc9a, cyc9b]
  have hh : hoursInWindowW [cyc9a, cyc9b] = 1 := by
    norm_num [hoursInWindowW, jsMaxList, jsMinList, cyc9a, cyc9b]
  have hur : utilizationRateW [cyc9a, cyc9b] = 300 := by
    norm_num [utilizationRateW, ht, hu, hh]
  have h100 : jsToFixed 1 (100 : ℚ) = 100 := by
    have := jsToFixed_intCast 1 100
    norm_num at this
    exact_mod_cast this
  have herr : fleetMetricsW [cyc9a, cyc9b] =
      .error "TypeError: totalEnergy is undefined, toFixed raises" := by
    norm_num [fleetMetricsW, jsSumBy, cyc9a, cyc9b]
    intro hcon
    simp at hcon
  rw [hrows]
  refine ⟨herr, ht, rfl, hh, ?_⟩
  rw [hur]
  norm_num [h100]

/-! ## Cycle-time drift (`MetricsCalculator.calculateCycleMetrics`,
`src/Dashboard.js` 1525–1552) -/

/-- The string-comparison key of the default JavaScript `Array.prototype.sort`
comparator, as the list of character codes of `String(x)`: exact for integral
values (JavaScript renders integral doubles in plain decimal); non-integral
rationals get a `num/den` fallback rendering, outside what the sources ever
sort (the claims use integral durations). -/
def jsNumKey (q : ℚ) : List ℕ :=
  if q.den = 1 then (toString q.num).data.map Char.toNat
  else ((toString q.num ++ "/" ++ toString q.den).data.map Char.toNat)

/-- Sort order of the default (comparator-less) JavaScript sort: ascending by
the code-unit-lexicographic order of the decimal rendering. -/
def jsLeKey (a b : ℚ) : Prop := jsNumKey a ≤ jsNumKey b

instance : DecidableRel jsLeKey :=
  fun a b => inferInstanceAs (Decidable (jsNumKey a ≤ jsNumKey b))

instance : IsTotal ℚ jsLeKey := ⟨fun a b => le_total (jsNumKey a) (jsNumKey b)⟩

instance : IsTrans ℚ jsLeKey := ⟨fun _ _ _ hab hbc => le_trans hab hbc⟩

/-- `durations`: the cycle.durationS of each cycle, 0 when absent. -/
def durationsOf (cycles : List TSPoint) : List ℚ :=
  cycles.map (fun c => c.durationS.getD 0)

/-- `durations.slice().sort()`: the comparator-less JavaScript sort
(lexicographic on decimal strings), modelled by insertion sort — any
comparison sort yields this same list because the key order is total and
ties only occur between equal values. -/
def jsSortedDurations (cycles : List TSPoint) : List ℚ :=
  List.insertionSort jsLeKey (durationsOf cycles)

/-- `baseline = durations.length > 0 ? sorted[Math.floor(len / 2)] : 0`. -/
def baselineOf (cycles : List TSPoint) : ℚ :=
  if 0 < (durationsOf cycles).length then
    (jsSortedDurations cycles).getD ((durationsOf cycles).length / 2) 0
  else 0

/-- One entry of the `trends` list (the `timeStr` presentation field is
omitted). -/
structure TrendEntry where
  cycle : ℕ
  duration : ℚ
  energy : ℚ
  powerFactor : ℚ
  drift : ℚ
  baseline : ℚ
  isDrifting : Bool
deriving DecidableEq, Repr

/-- The raw (pre-`toFixed`) drift of the cycle at index `i`:
`baseline > 0 ? ((duration - baseline) / baseline) * 100 : 0`. -/
def driftRawAt (cycles : List TSPoint) (i : ℕ) : ℚ :=
  if 0 < baselineOf cycles then
    (((durationsOf cycles).getD i 0) - baselineOf cycles) / baselineOf cycles * 100
  else 0

/-- The `trends` list: one entry per cycle, in order, with `drift`,
`duration` and `baseline` rounded through `toFixed(2)` and `isDrifting`
decided on the unrounded drift (`Math.abs(drift) > 10`). -/
def trendsOf (cycles : List TSPoint) : List TrendEntry :=
  cycles.enum.map (fun p =>
    { cycle := p.1 + 1
      duration := jsToFixed 2 (p.2.durationS.getD 0)
      energy := jsToFixed 2 (p.2.energyWorkWh.getD 0)
      powerFactor := jsToFixed 2 (p.2.loadFactor.getD 0)
      drift := jsToFixed 2 (driftRawAt cycles p.1)
      baseline := jsToFixed 2 (baselineOf cycles)
      isDrifting := decide (10 < |driftRawAt cycles p.1|) })

/-- `_.max(durations) || 30`: `undefined` on an empty list and `0` are both
falsy, yielding the fallback `30`. -/
def jsMaxQOr30 (l : List ℚ) : ℚ :=
  match l with
  | [] => 30
  | x :: xs => if xs.foldl max x = 0 then 30 else xs.foldl max x

/-- `_.range(0, n, 2)`. -/
def rangeStep2 (n : ℤ) : List ℤ :=
  (List.range (((max n 0).toNat + 1) / 2)).map (fun k => (2 * k : ℤ))

/-- The duration histogram (`distribution`): 2-second buckets from 0 up to
the ceiling of the maximum duration, each with the count of durations `d`
with `bucket <= d < bucket + 2` (the label string is represented by the
bucket start). -/
def distributionOf (cycles : List TSPoint) : List (ℤ × ℕ) :=
  (rangeStep2 ⌈jsMaxQOr30 (durationsOf cycles)⌉).map (fun b =>
    (b, ((durationsOf cycles).filter
          (fun d => (b : ℚ) ≤ d ∧ d < (b : ℚ) + 2)).length))

/-- `xs.slice(-n)`: the last `n` elements. -/
def sliceLast (n : ℕ) (l : List α) : List α :=
  l.drop (l.length - n)

/-- The result record of `calculateCycleMetrics`. -/
structure CycleMetricsD where
  trends : List TrendEntry
  distribution : List (ℤ × ℕ)
  driftAnalysis : List TrendEntry
  baseline : ℚ
deriving DecidableEq, Repr

/-- `MetricsCalculator.calculateCycleMetrics` (`src/Dashboard.js`
1525–1552). -/
def calculateCycleMetricsD (cycles : List TSPoint) : CycleMetricsD :=
  if cycles = [] then
    { trends := [], distribution := [], driftAnalysis := [], baseline := 0 }
  else
    { trends := trendsOf cycles
      distribution := distributionOf cycles
      driftAnalysis := sliceLast 30 (trendsOf cycles)
      baseline := baselineOf cycles }

/-- The default trend entry (used as the out-of-range `getD` fallback). -/
def defaultTrend : TrendEntry := ⟨0, 0, 0, 0, 0, 0, false⟩

/-- Three cycles with durations 3, 10 and 4 seconds: the comparator-less
JavaScript sort orders their decimal strings `["10","3","4"]`, so the
floor-middle element is `3`, not the numeric median `4`. -/
def cx6Counter : List TSPoint :=
  [{ TSPoint.at 0 with durationS := some 3 },
   { TSPoint.at 1 with durationS := some 10 },
   { TSPoint.at 2 with durationS := some 4 }]

/-- The drift-scenario cycles: durations `[10,10,10,10,20]` seconds. -/
def cx6Scenario : List TSPoint :=
  [{ TSPoint.at 0 with durationS := some 10 },
   { TSPoint.at 1 with durationS := some 10 },
   { TSPoint.at 2 with durationS := some 10 },
   { TSPoint.at 3 with durationS := some 10 },
   { TSPoint.at 4 with durationS := some 20 }]

/-- **C6 counterexample.**  On durations `[3, 10, 4]` the baseline in the code is
the floor-middle of the **string-sorted** list (`3`), not the floor-middle of
the list sorted in ascending numeric order (`4`): the comparator-less JavaScript
`sort()` compares decimal strings, so `"10" < "3" < "4"`. -/
theorem C6_counterexample :
    baselineOf cx6Counter = 3 ∧
      (List.insertionSort (fun a b : ℚ => a ≤ b) (durationsOf cx6Counter)).getD
        ((durationsOf cx6Counter).length / 2) 0 = 4 ∧
      baselineOf cx6Counter ≠
        (List.insertionSort (fun a b : ℚ => a ≤ b) (durationsOf cx6Counter)).getD
          ((durationsOf cx6Counter).length / 2) 0 := by
  refine ⟨?_, ?_, ?_⟩ <;> decide

/-- Per-index description of the `trends` list. -/
theorem trendsOf_spec (cycles : List TSPoint) (i : ℕ) (hi : i < cycles.length) :
    ((trendsOf cycles).getD i defaultTrend).drift =
        jsToFixed 2 (driftRawAt cycles i) ∧
      (((trendsOf cycles).getD i defaultTrend).isDrifting = true ↔
        10 < |driftRawAt cycles i|) := by
  have hlen : i < (trendsOf cycles).length := by
    simpa [trendsOf] using hi
  rw [List.getD_eq_getElem _ _ hlen]
  simp [trendsOf]

/-- **C6 (amended).**  For every non-empty cycle list, the drift baseline is
the element at index `floor(n/2)` of the durations sorted ascending by the
**decimal-string key of the default JavaScript sort** (not numeric order); the
stored drift of each cycle is `(duration − baseline)/baseline × 100` rounded
through `toFixed(2)`, and a cycle is flagged as drifting iff the unrounded
drift exceeds 10 in absolute value.  For the five durations
`[10,10,10,10,20]` the baseline is 10 and the trend list contains exactly one
drifting entry. -/
theorem C6_drift_amended :
    (∀ cycles : List TSPoint, cycles ≠ [] →
      (jsSortedDurations cycles).Perm (durationsOf cycles) ∧
      (jsSortedDurations cycles).Sorted jsLeKey ∧
      baselineOf cycles =
        (jsSortedDurations cycles).getD ((durationsOf cycles).length / 2) 0 ∧
      (calculateCycleMetricsD cycles).baseline = baselineOf cycles ∧
      (calculateCycleMetricsD cycles).trends.length = cycles.length ∧
      ∀ i, i < cycles.length →
        ((calculateCycleMetricsD cycles).trends.getD i defaultTrend).drift =
            jsToFixed 2 (driftRawAt cycles i) ∧
          (((calculateCycleMetricsD cycles).trends.getD i defaultTrend).isDrifting = true ↔
            10 < |driftRawAt cycles i|)) ∧
    baselineOf cx6Scenario = 10 ∧
    ((calculateCycleMetricsD cx6Scenario).trends.filter (·.isDrifting)).length = 1 := by
  have hmain : ∀ cycles : List TSPoint, cycles ≠ [] →
      (jsSortedDurations cycles).Perm (durationsOf cycles) ∧
      (jsSortedDurations cycles).Sorted jsLeKey ∧
      baselineOf cycles =
        (jsSortedDurations cycles).getD ((durationsOf cycles).length / 2) 0 ∧
      (calculateCycleMetricsD cycles).baseline = baselineOf cycles ∧
      (calculateCycleMetricsD cycles).trends.length = cycles.length ∧
      ∀ i, i < cycles.length →
        ((calculateCycleMetricsD cycles).trends.getD i defaultTrend).drift =
            jsToFixed 2 (driftRawAt cycles i) ∧
          (((calculateCycleMetricsD cycles).trends.getD i defaultTrend).isDrifting = true ↔
            10 < |driftRawAt cycles i|) := by
    intro cycles h
    have hpos : 0 < (durationsOf cycles).length := by
      simpa [durationsOf, List.length_pos] using h
    refine ⟨List.perm_insertionSort jsLeKey _,
      List.sorted_insertionSort jsLeKey _, ?_, ?_, ?_, ?_⟩
    · rw [baselineOf, if_pos hpos]
    · rw [calculateCycleMetricsD, if_neg h]
    · rw [calculateCycleMetricsD, if_neg h]
      simp [trendsOf]
    · intro i hi
      have := trendsOf_spec cycles i hi
      rw [calculateCycleMetricsD, if_neg h]
      exact this
  refine ⟨hmain, by decide, ?_⟩
  have hb : baselineOf cx6Scenario = 10 := by decide
  have h0 : driftRawAt cx6Scenario 0 = 0 := by
    rw [driftRawAt, hb]; norm_num [durationsOf, cx6Scenario, TSPoint.at]
  have h1 : driftRawAt cx6Scenario 1 = 0 := by
    rw [driftRawAt, hb]; norm_num [durationsOf, cx6Scenario, TSPoint.at]
  have h2 : driftRawAt cx6Scenario 2 = 0 := by
    rw [driftRawAt, hb]; norm_num [durationsOf, cx6Scenario, TSPoint.at]
  have h3 : driftRawAt cx6Scenario 3 = 0 := by
    rw [driftRawAt, hb]; norm_num [durationsOf, cx6Scenario, TSPoint.at]
  have h4 : driftRawAt cx6Scenario 4 = 100 := by
    rw [driftRawAt, hb]; norm_num [durationsOf, cx6Scenario, TSPoint.at]
  have e0 : (decide (10 < |driftRawAt cx6Scenario 0|)) = false := by rw [h0]; norm_num
  have e1 : (decide (10 < |driftRawAt cx6Scenario 1|)) = false := by rw [h1]; norm_num
  have e2 : (decide (10 < |driftRawAt cx6Scenario 2|)) = false := by rw [h2]; norm_num
  have e3 : (decide (10 < |driftRawAt cx6Scenario 3|)) = false := by rw [h3]; norm_num
  have e4 : (decide (10 < |driftRawAt cx6Scenario 4|)) = true := by rw [h4]; norm_num
  have hne : cx6Scenario ≠ [] := by simp [cx6Scenario]
  have henum : cx6Scenario.enum =
      [(0, { TSPoint.at 0 with durationS := some 10 }),
       (1, { TSPoint.at 1 with durationS := some 10 }),
       (2, { TSPoint.at 2 with durationS := some 10 }),
       (3, { TSPoint.at 3 with durationS := some 10 }),
       (4, { TSPoint.at 4 with durationS := some 20 })] := by decide
  rw [calculateCycleMetricsD, if_neg hne, trendsOf, henum]
  simp only [List.map, e0, e1, e2, e3, e4]
  simp [List.filter]

/-- Witness for the amended C6 at the drift-scenario input. -/
theorem C6_drift_amended_witness :
    (jsSortedDurations cx6Scenario).Perm (durationsOf cx6Scenario) ∧
      (jsSortedDurations cx6Scenario).Sorted jsLeKey ∧
      baselineOf cx6Scenario =
        (jsSortedDurations cx6Scenario).getD
          ((durationsOf cx6Scenario).length / 2) 0 ∧
      (calculateCycleMetricsD cx6Scenario).baseline = baselineOf cx6Scenario ∧
      (calculateCycleMetricsD cx6Scenario).trends.length = cx6Scenario.length ∧
      ∀ i, i < cx6Scenario.length →
        ((calculateCycleMetricsD cx6Scenario).trends.getD i defaultTrend).drift =
            jsToFixed 2 (driftRawAt cx6Scenario i) ∧
          (((calculateCycleMetricsD cx6Scenario).trends.getD i defaultTrend).isDrifting = true ↔
            10 < |driftRawAt cx6Scenario i|) :=
  C6_drift_amended.1 cx6Scenario (by simp [cx6Scenario])

/-! ## Missing-column scenario (C5) -/

/-- Wide-shape CSV text whose header lacks `cycle_duration_ms`. -/
def csv5Text : String := "device_id,cycle_started_at\nM1,0"

/-- A dashboard state already displaying a (non-empty) dataset. -/
def statePrev : DashState :=
  { data := [sampleCycle], originalData := [sampleCycle],
    errorMessage := "", loading := false }

/-- **C5 counterexample.**  Uploading wide-shape CSV without
`cycle_duration_ms` over a previously displayed dataset does raise the
missing-columns error naming that column, but the catch branch then clears
`data` and `originalData` (`setData([]); setOriginalData([])`), so the
previously displayed dataset is **not** left unchanged. -/
theorem C5_counterexample :
    (processCSVDataP1 (parseCSVtext csv5Text) statePrev).errorMessage =
        "Missing required columns: cycle_duration_ms" ∧
      statePrev.originalData ≠ [] ∧
      (processCSVDataP1 (parseCSVtext csv5Text) statePrev).originalData = [] ∧
      (processCSVDataP1 (parseCSVtext csv5Text) statePrev).data = [] := by
  refine ⟨?_, ?_, ?_, ?_⟩ <;> decide

/-- **C5 (amended).**  Whenever the parsed wide-shape input is non-empty and
its first row lacks some required columns, `processCSVData` (the `part_001`
variant; the `src/Dashboard.js` variant performs no column check at all)
fails with `Missing required columns: ` followed by the comma-joined missing
column names, and resets the displayed dataset to the empty awaiting-upload
state instead of preserving the previous one. -/
theorem C5_missing_columns (rows : List RawRow) (st : DashState)
    (hne : rows ≠ []) (hmiss : missingColumnsOf rows ≠ []) :
    processCSVDataP1 rows st =
        errState st ("Missing required columns: " ++
          String.intercalate ", " (missingColumnsOf rows)) ∧
      (processCSVDataP1 rows st).errorMessage =
        "Missing required columns: " ++
          String.intercalate ", " (missingColumnsOf rows) ∧
      (processCSVDataP1 rows st).data = [] ∧
      (processCSVDataP1 rows st).originalData = [] := by
  have h : processCSVDataP1 rows st =
      errState st ("Missing required columns: " ++
        String.intercalate ", " (missingColumnsOf rows)) := by
    unfold processCSVDataP1
    rw [if_neg hne, if_pos hmiss]
  exact ⟨h, by rw [h]; rfl, by rw [h]; rfl, by rw [h]; rfl⟩

/-! ## Utilization heatmaps (C7): `heatmapData` (`src/Dashboard.js` 413–448
and `part_001` 290–312) and `MetricsCalculator.calculateUtilizationHeatmap`
(`src/Dashboard.js` 1743–1783) -/

/-- Add `v` to one cell of a 7×24 grid (`heatmap[key] += v`). -/
def bumpCell (f : Fin 7 × Fin 24 → ℚ) (p : Fin 7 × Fin 24) (v : ℚ) :
    Fin 7 × Fin 24 → ℚ :=
  Function.update f p (f p + v)

/-- The 168 `(dayIndex, hour)` keys in the order the source enumerates them
(`days.forEach(... hours.forEach ...)`). -/
def allCells : List (Fin 7 × Fin 24) :=
  (List.finRange 7).flatMap (fun d => (List.finRange 24).map (fun h => (d, h)))

/-- Sum of a grid over all 168 cells. -/
def cellSum (f : Fin 7 × Fin 24 → ℚ) : ℚ :=
  (allCells.map f).sum

/-- `Math.max(...xs)` over rationals (`0` junk value on `[]`). -/
def jsMaxQList (l : List ℚ) : ℚ :=
  match l with
  | [] => 0
  | x :: xs => xs.foldl max x

/-- The accumulation loop of the wide heatmap:
`data.forEach(record => heatmap[day-hour] += record.runtime_hours)`. -/
def heatFoldW (data : List Cycle) : Fin 7 × Fin 24 → ℚ :=
  data.foldl
    (fun f r => bumpCell f (r.dayOfWeek, r.hour) r.runtime_hours)
    (fun _ => 0)

/-- One rendered heatmap cell. -/
structure HeatCell where
  day : Fin 7
  hour : Fin 24
  value : ℚ
  intensity : ℚ
deriving DecidableEq, Repr

/-- The wide-dashboard heatmap cell array (`heatmapData`): raw cell value
plus intensity `maxValue > 0 ? value / maxValue * 100 : 0`; `[]` models the
empty-data early return. -/
def heatmapArrayW (data : List Cycle) : List HeatCell :=
  if data = [] then []
  else
    allCells.map (fun p =>
      { day := p.1
        hour := p.2
        value := heatFoldW data p
        intensity :=
          if 0 < jsMaxQList (allCells.map (heatFoldW data)) then
            heatFoldW data p / jsMaxQList (allCells.map (heatFoldW data)) * 100
          else 0 })

/-- The accumulation loop of the long heatmap
(`calculateUtilizationHeatmap`): each real-time sample with `DI1_KM === 1`
adds 1 to the cell of its timestamp. -/
def heatFoldL (rt : List TSPoint) : Fin 7 × Fin 24 → ℚ :=
  rt.foldl
    (fun f r =>
      if r.diKM = some 1 then
        bumpCell f (jsDayOfWeek r.timestamp, jsHour r.timestamp) 1
      else f)
    (fun _ => 0)

/-- The long-dashboard heatmap cell array; the intensity denominator is
`Math.max(...values, 1)`. -/
def heatmapArrayL (rt : List TSPoint) : List HeatCell :=
  if rt = [] then []
  else
    allCells.map (fun p =>
      { day := p.1
        hour := p.2
        value := heatFoldL rt p
        intensity :=
          heatFoldL rt p / max (jsMaxQList (allCells.map (heatFoldL rt))) 1 * 100 })

set_option maxRecDepth 8192 in
theorem allCells_nodup : allCells.Nodup := by decide

set_option maxRecDepth 8192 in
theorem allCells_length : allCells.length = 168 := by decide

set_option maxRecDepth 8192 in
theorem allCells_toFinset : allCells.toFinset = Finset.univ := by
  apply Finset.eq_univ_iff_forall.mpr
  intro p
  rw [List.mem_toFinset]
  revert p
  decide

theorem cellSum_eq_finsetSum (f : Fin 7 × Fin 24 → ℚ) :
    cellSum f = ∑ p : Fin 7 × Fin 24, f p := by
  rw [cellSum, ← List.sum_toFinset _ allCells_nodup, allCells_toFinset]

theorem cellSum_bump (f : Fin 7 × Fin 24 → ℚ) (p : Fin 7 × Fin 24) (v : ℚ) :
    cellSum (bumpCell f p v) = cellSum f + v := by
  rw [cellSum_eq_finsetSum, cellSum_eq_finsetSum, bumpCell,
    Finset.sum_update_of_mem (Finset.mem_univ p),
    Finset.sum_eq_sum_diff_singleton_add (Finset.mem_univ p) f]
  ring

theorem heatFoldW_conserves (data : List Cycle) :
    ∀ f₀ : Fin 7 × Fin 24 → ℚ,
      cellSum (data.foldl
        (fun f r => bumpCell f (r.dayOfWeek, r.hour) r.runtime_hours) f₀) =
      cellSum f₀ + (data.map (·.runtime_hours)).sum := by
  induction data with
  | nil => intro f₀; simp
  | cons r rs ih =>
    intro f₀
    rw [List.foldl_cons, ih, cellSum_bump, List.map_cons, List.sum_cons]
    ring

theorem heatFoldL_conserves (rt : List TSPoint) :
    ∀ f₀ : Fin 7 × Fin 24 → ℚ,
      cellSum (rt.foldl
        (fun f r =>
          if r.diKM = some 1 then
            bumpCell f (jsDayOfWeek r.timestamp, jsHour r.timestamp) 1
          else f) f₀) =
      cellSum f₀ + ((rt.filter (·.diKM = some 1)).length : ℚ) := by
  induction rt with
  | nil => intro f₀; simp
  | cons r rs ih =>
    intro f₀
    rw [List.foldl_cons]
    by_cases h : r.diKM = some 1
    · rw [if_pos h, ih, cellSum_bump]
      have : (r :: rs).filter (·.diKM = some 1) =
          r :: rs.filter (·.diKM = some 1) := by
        simp [List.filter_cons, h]
      rw [this, List.length_cons]
      push_cast
      ring
    · rw [if_neg h, ih]
      have : (r :: rs).filter (·.diKM = some 1) = rs.filter (·.diKM = some 1) := by
        simp [List.filter_cons, h]
      rw [this]

theorem cellSum_zero : cellSum (fun _ => (0 : ℚ)) = 0 := by
  rw [cellSum_eq_finsetSum]
  simp

/-- **C7.**  Heatmap conservation: for every filtered dataset, the sum of the
raw (pre-intensity) values over all 168 day-of-week × hour-of-day cells
equals the total of the contributing metric over the whole dataset — total
`runtime_hours` on the wide path, the count of `DI1_KM === 1` samples on the
long path — and the rendered array indeed has 168 cells whenever the dataset
is non-empty. -/
theorem C7_heatmap_conservation :
    (∀ data : List Cycle,
      ((heatmapArrayW data).map (·.value)).sum =
          (data.map (·.runtime_hours)).sum ∧
        (heatmapArrayW data).length = if data = [] then 0 else 168) ∧
    (∀ rt : List TSPoint,
      ((heatmapArrayL rt).map (·.value)).sum =
          ((rt.filter (·.diKM = some 1)).length : ℚ) ∧
        (heatmapArrayL rt).length = if rt = [] then 0 else 168) := by
  constructor
  · intro data
    by_cases h : data = []
    · subst h
      simp [heatmapArrayW]
    · rw [heatmapArrayW, if_neg h]
      constructor
      · rw [List.map_map]
        have : ((fun c : HeatCell => c.value) ∘ fun p : Fin 7 × Fin 24 =>
            ({ day := p.1, hour := p.2, value := heatFoldW data p,
               intensity :=
                 if 0 < jsMaxQList (allCells.map (heatFoldW data)) then
                   heatFoldW data p / jsMaxQList (allCells.map (heatFoldW data)) * 100
                 else 0 } : HeatCell)) = heatFoldW data := rfl
        rw [this]
        have hc := heatFoldW_conserves data (fun _ => 0)
        rw [cellSum_zero] at hc
        simpa [cellSum] using hc
      · simp [h, List.length_map, allCells_length]
  · intro rt
    by_cases h : rt = []
    · subst h
      simp [heatmapArrayL]
    · rw [heatmapArrayL, if_neg h]
      constructor
      · rw [List.map_map]
        have : ((fun c : HeatCell => c.value) ∘ fun p : Fin 7 × Fin 24 =>
            ({ day := p.1, hour := p.2, value := heatFoldL rt p,
               intensity :=
                 heatFoldL rt p /
                   max (jsMaxQList (allCells.map (heatFoldL rt))) 1 * 100 } : HeatCell)) =
            heatFoldL rt := rfl
        rw [this]
        have hc := heatFoldL_conserves rt (fun _ => 0)
        rw [cellSum_zero] at hc
        simpa [cellSum] using hc
      · simp [h, List.length_map, allCells_length]

/-! ## Further Metrics Engine functions (for the empty-input contract) -/

/-- One entry of the anomaly list (`timeStr` omitted). -/
structure AnomalyEntry where
  cycle : ℕ
  score : ℕ
  isAnomaly : Bool
  inrushHigh : Bool
  voltageIssue : Bool
  currentIssue : Bool
  rippleHigh : Bool
  cycleError : Bool
deriving DecidableEq, Repr

/-- The severity buckets of `calculateAnomalies`. -/
structure SeverityCounts where
  critical : ℕ
  high : ℕ
  medium : ℕ
deriving DecidableEq, Repr

/-- Result of `calculateAnomalies`; `severity = none` models the empty `{}`
returned on empty input. -/
structure AnomalyMetrics where
  anomalies : List AnomalyEntry
  count : ℕ
  recentAnomalies : List AnomalyEntry
  severity : Option SeverityCounts
deriving DecidableEq, Repr

/-- The per-cycle anomaly scoring of `calculateAnomalies`. -/
def anomalyEntriesOf (cycles : List TSPoint) (th : Thresholds) : List AnomalyEntry :=
  cycles.enum.map (fun p =>
    let inrushHigh := decide (th.inrushMultiple < p.2.inrushMultiple.getD 0)
    let voltageIssue := decide (th.voltageSag < p.2.sagDepthPct.getD 0)
    let currentIssue := decide (th.currentUnbalance < p.2.unbalancePct.getD 0)
    let rippleHigh := decide (th.ripple < p.2.rippleMaxPct.getD 0)
    let cycleError := decide (p.2.overall = some 1)
    let score := ([inrushHigh, voltageIssue, currentIssue, rippleHigh,
      cycleError].filter id).length
    { cycle := p.1 + 1
      score := score
      isAnomaly := decide (2 ≤ score)
      inrushHigh := inrushHigh
      voltageIssue := voltageIssue
      currentIssue := currentIssue
      rippleHigh := rippleHigh
      cycleError := cycleError })

/-- `MetricsCalculator.calculateAnomalies` (`src/Dashboard.js` 1614–1649). -/
def calculateAnomalies (cycles : List TSPoint) (th : Thresholds) : AnomalyMetrics :=
  if cycles = [] then ⟨[], 0, [], none⟩
  else
    { anomalies := anomalyEntriesOf cycles th
      count := ((anomalyEntriesOf cycles th).filter (·.isAnomaly)).length
      recentAnomalies := sliceLast 10 ((anomalyEntriesOf cycles th).filter (·.isAnomaly))
      severity := some
        { critical := ((anomalyEntriesOf cycles th).filter (fun a => 4 ≤ a.score)).length
          high := ((anomalyEntriesOf cycles th).filter (fun a => a.score = 3)).length
          medium := ((anomalyEntriesOf cycles th).filter (fun a => a.score = 2)).length } }

/-- One safety event (`time` presentation field omitted). -/
structure SafetyEvent where
  etype : String
  severity : String
deriving DecidableEq, Repr

/-- Result of the long-dashboard `calculateSafetyMetrics`
(`src/Dashboard.js` 1651–1675); timeline entries are the
`(eStop, doorOpen, fullError)` flag triples of the last 200 samples. -/
structure SafetyMetricsD where
  events : List SafetyEvent
  timeline : List (ℚ × ℚ × ℚ)
deriving DecidableEq, Repr

/-- The event accumulation loop of `calculateSafetyMetrics`: each sample may
push up to three events, in source order. -/
def safetyEventsOf (rt : List TSPoint) : List SafetyEvent :=
  rt.flatMap (fun p =>
    (if p.diOverloadKey = some 1 then [⟨"E-Stop/Overload", "critical"⟩] else []) ++
    (if p.diDoor = some 1 ∧ p.diKM = some 1 then
      [⟨"Door Open Violation", "high"⟩] else []) ++
    (if p.diFullError = some 1 then [⟨"Full Error", "critical"⟩] else []))

/-- `MetricsCalculator.calculateSafetyMetrics` (`src/Dashboard.js`
1651–1675). -/
def calculateSafetyMetricsD (rt : List TSPoint) : SafetyMetricsD :=
  if rt = [] then ⟨[], []⟩
  else
    { events := sliceLast 20 (safetyEventsOf rt)
      timeline := (sliceLast 200 rt).map (fun d =>
        (d.diOverloadKey.getD 0, d.diDoor.getD 0, d.diFullError.getD 0)) }

/-- Result of `calculateLifetimeMetrics` (`src/Dashboard.js` 1806–1833). -/
structure LifetimeMetrics where
  lifetimeCycles : ℕ
  rul : ℚ
  rulDays : ℚ
  remainingCycles : ℚ
  mtbf : ℚ
  mttr : ℚ
deriving DecidableEq, Repr

/-- `Math.max(0, threshold - lifetimeCycles)`. -/
def remainingCyclesOf (n : ℕ) (threshold : ℚ) : ℚ :=
  max 0 (threshold - n)

/-- `MetricsCalculator.calculateLifetimeMetrics` (`src/Dashboard.js`
1806–1833): remaining-useful-life projection plus MTBF; `mttr` is the
constant 2.5. -/
def calculateLifetimeMetrics (allCycles : List TSPoint) (th : Thresholds) :
    LifetimeMetrics :=
  if allCycles = [] then ⟨0, 0, 0, 0, 0, 5 / 2⟩
  else
    { lifetimeCycles := allCycles.length
      rul := jsToFixed 1
        (remainingCyclesOf allCycles.length th.lifetimeCycleThreshold /
          th.lifetimeCycleThreshold * 100)
      rulDays := jsToFixed 0
        (if 0 < avgCyclesPerDay then
          remainingCyclesOf allCycles.length th.lifetimeCycleThreshold / avgCyclesPerDay
         else 0)
      remainingCycles := remainingCyclesOf allCycles.length th.lifetimeCycleThreshold
      mtbf := jsToFixed 1
        (if 0 < failures then totalRuntimeL allCycles / failures
         else totalRuntimeL allCycles)
      mttr := 5 / 2 }
where
  dataSpanDays : ℚ :=
    if allCycles = [] then 1
    else
      ((jsMaxList (allCycles.map (·.timestamp)) -
         jsMinList (allCycles.map (·.timestamp)) : Int) : ℚ) / 86400000
  avgCyclesPerDay : ℚ :=
    if 0 < dataSpanDays then allCycles.length / dataSpanDays
    else allCycles.length
  failures : ℕ := (allCycles.filter (·.overall = some 1)).length

/-- `MetricsCalculator.calculateUtilization` of `src/TimeSeriesDashboard.js`
(lines 89–94): `min(100, avgDuration / 30 * 100)`, `0` on empty input. -/
def tsCalculateUtilization (cycles : List TSPoint) : ℚ :=
  if cycles = [] then 0
  else min 100 (sumByQ (cycles.map (·.durationS)) / cycles.length / 30 * 100)

/-- Result of the TimeSeriesDashboard `calculateEOLMetrics` (lines 348–382);
forecast entries are `(date label, projected remaining %)`. -/
structure EOLMetrics where
  lifetimeCycles : ℕ
  remaining : ℚ
  remainingCycles : ℚ
  rulDays : ℤ
  forecast : List (String × ℚ)
deriving DecidableEq, Repr

/-- The fixed forecast date labels of `calculateEOLMetrics`. -/
def eolForecastDates : List String :=
  ["09 Oct", "10 Oct", "11 Oct", "12 Oct", "13 Oct", "14 Oct", "15 Oct",
   "16 Oct", "17 Oct"]

/-- `MetricsCalculator.calculateEOLMetrics` of `src/TimeSeriesDashboard.js`
(lines 348–382): lifetime threshold fixed at 50 000, `rulDays` floored. -/
def tsCalculateEOLMetrics (cycles : List TSPoint) : EOLMetrics :=
  if cycles = [] then ⟨0, 100, 50000, 0, []⟩
  else
    { lifetimeCycles := cycles.length
      remaining := jsToFixed 1 (remainingCyclesOf cycles.length 50000 / 50000 * 100)
      remainingCycles := remainingCyclesOf cycles.length 50000
      rulDays :=
        if 0 < avgCyclesPerDay then
          ⌊remainingCyclesOf cycles.length 50000 / avgCyclesPerDay⌋
        else 0
      forecast := eolForecastDates.enum.map (fun p =>
        (p.2, jsToFixed 2
          (max 0 ((50000 - (cycles.length + avgCyclesPerDay * p.1)) / 50000 * 100)))) }
where
  dataSpanDays : ℚ :=
    if cycles = [] then 1
    else
      ((jsMaxList (cycles.map (·.timestamp)) -
         jsMinList (cycles.map (·.timestamp)) : Int) : ℚ) / 86400000
  avgCyclesPerDay : ℚ :=
    if 0 < dataSpanDays then cycles.length / dataSpanDays
    else cycles.length

/-- Result of the TimeSeriesDashboard `calculateSafetyMetrics` (lines
322–346); events are `(device, issue)` pairs, the locale time string is
omitted. -/
structure TSSafetyMetrics where
  eStop : ℕ
  door : ℕ
  errors : ℕ
  mtbf : ℚ
  events : List (String × String)
deriving DecidableEq, Repr

/-- `MetricsCalculator.calculateSafetyMetrics` of
`src/TimeSeriesDashboard.js` (lines 322–346): counts of safety flags and the
last seven triggering samples classified as `Overload`/`Full`/`Gate Down`,
with a constant `mtbf` of 20. -/
def tsCalculateSafetyMetrics (rt : List TSPoint) : TSSafetyMetrics :=
  if rt = [] then ⟨0, 0, 0, 20, []⟩
  else
    { eStop := (rt.filter (·.diOverloadKey = some 1)).length
      door := (rt.filter (fun d => d.diDoor = some 1 ∧ d.diKM = some 1)).length
      errors := (rt.filter (·.diFullError = some 1)).length
      mtbf := 20
      events := (sliceLast 7 (rt.filter (fun d =>
          d.diOverloadKey = some 1 ∨ (d.diDoor = some 1 ∧ d.diKM = some 1) ∨
            d.diFullError = some 1))).map (fun d =>
        ("Baler 1",
          if d.diOverloadKey = some 1 then "Overload"
          else if d.diFullError = some 1 then "Full"
          else if d.diDoor = some 1 then "Gate Down"
          else "Unknown")) }

/-- **C4.**  Empty-input safety: every embedded Metrics Engine function,
given an empty filtered input, is defined and returns exactly the zeroed or
empty structure the guard clause of its source specifies, rather than raising
(every `MetricsCalculator` function in both dashboards opens with such a
guard). -/
theorem C4_empty_input_safety :
    (∀ (rt : List TSPoint) (th : Thresholds), calculateFleetKPIs [] rt th = none) ∧
    calculateCycleMetricsD [] = ⟨[], [], [], 0⟩ ∧
    (∀ th, calculateAnomalies [] th = ⟨[], 0, [], none⟩) ∧
    calculateSafetyMetricsD [] = ⟨[], []⟩ ∧
    (∀ th, calculateLifetimeMetrics [] th = ⟨0, 0, 0, 0, 0, 5 / 2⟩) ∧
    heatmapArrayW [] = [] ∧
    heatmapArrayL [] = [] ∧
    fleetMetricsW [] = .ok none ∧
    tsCalculateUtilization [] = 0 ∧
    tsCalculateEOLMetrics [] = ⟨0, 100, 50000, 0, []⟩ ∧
    tsCalculateSafetyMetrics [] = ⟨0, 0, 0, 20, []⟩ := by
  refine ⟨fun rt th => rfl, rfl, fun th => rfl, rfl, fun th => rfl, rfl, rfl,
    rfl, rfl, rfl, rfl⟩

/-! ## Long-shape pivot (`DataProcessor.pivotLongToWide`,
`src/TimeSeriesDashboard.js` 53–85 and `src/Dashboard.js` 1415–1452) -/

/-- One long-shape row (`Time`, `deviceId`, `measure_name`,
`measure_value`). -/
structure LongRow where
  deviceId : String
  time : String
  measureName : String
  measureValue : ℚ
deriving DecidableEq, Repr

/-- JavaScript object assignment `point[k] = v` on an insertion-ordered
association list: overwrite in place when the key exists, append
otherwise. -/
def objSet (o : List (String × ℚ)) (k : String) (v : ℚ) : List (String × ℚ) :=
  if o.any (fun q => q.1 = k) then
    o.map (fun q => if q.1 = k then (k, v) else q)
  else o ++ [(k, v)]

/-- The rows contributing to the point of one `(deviceId, Time)` pair:
the lodash groupBy on deviceId followed by groupBy on Time
preserves input order within each group, so the group is the order-preserving
filter. -/
def groupRows (rows : List LongRow) (d t : String) : List LongRow :=
  rows.filter (fun r => r.deviceId = d ∧ r.time = t)

/-- The measure-name fields of the TimeSeriesPoint of one group:
`measures.forEach(m => point[m.measure_name] = m.measure_value)` (the
`time`/`timeStr`/`timestamp` meta fields of the point are modelled apart). -/
def pointFields (measures : List LongRow) : List (String × ℚ) :=
  measures.foldl (fun o m => objSet o m.measureName m.measureValue) []

theorem find?_mapReplace_self (o : List (String × ℚ)) (k : String) (v : ℚ)
    (hany : o.any (fun q => q.1 = k) = true) :
    (o.map (fun q => if q.1 = k then (k, v) else q)).find? (fun q => q.1 = k) =
      some (k, v) := by
  induction o with
  | nil => simp at hany
  | cons p ps ih =>
    by_cases hp : p.1 = k
    · rw [List.map_cons, if_pos hp, List.find?_cons_of_pos _ (by simp)]
    · rw [List.map_cons, if_neg hp, List.find?_cons_of_neg _ (by simp [hp])]
      exact ih (by simpa [List.any_cons, hp] using hany)

theorem find?_objSet_self (o : List (String × ℚ)) (k : String) (v : ℚ) :
    (objSet o k v).find? (fun q => q.1 = k) = some (k, v) := by
  unfold objSet
  split
  · next hany => exact find?_mapReplace_self o k v hany
  · next hany =>
    have hnone : o.find? (fun q => q.1 = k) = none := by
      apply List.find?_eq_none.mpr
      intro q hq
      simp only [List.any_eq_true, not_exists, not_and] at hany
      intro hcontra
      have := hany q hq
      simp [hcontra] at this
    rw [List.find?_append, hnone, Option.none_or]
    rw [List.find?_cons_of_pos _ (by simp)]

theorem find?_mapReplace_other (o : List (String × ℚ)) (k n : String) (v : ℚ)
    (hnk : n ≠ k) :
    (o.map (fun q => if q.1 = k then (k, v) else q)).find? (fun q => q.1 = n) =
      o.find? (fun q => q.1 = n) := by
  induction o with
  | nil => rfl
  | cons p ps ih =>
    by_cases hp : p.1 = k
    · rw [List.map_cons, if_pos hp,
        List.find?_cons_of_neg _ (by simp [Ne.symm hnk]),
        List.find?_cons_of_neg _ (by simp [hp, Ne.symm hnk])]
      exact ih
    · rw [List.map_cons, if_neg hp]
      by_cases hpn : p.1 = n
      · rw [List.find?_cons_of_pos _ (by simp [hpn]),
          List.find?_cons_of_pos _ (by simp [hpn])]
      · rw [List.find?_cons_of_neg _ (by simp [hpn]),
          List.find?_cons_of_neg _ (by simp [hpn])]
        exact ih

theorem find?_objSet_other (o : List (String × ℚ)) (k n : String) (v : ℚ)
    (hnk : n ≠ k) :
    (objSet o k v).find? (fun q => q.1 = n) = o.find? (fun q => q.1 = n) := by
  unfold objSet
  split
  · exact find?_mapReplace_other o k n v hnk
  · rw [List.find?_append]
    cases hfo : o.find? (fun q => q.1 = n) with
    | some q => simp
    | none =>
      rw [Option.none_or, List.find?_cons_of_neg _ (by simp [Ne.symm hnk])]
      rfl

theorem countP_mapReplace_self (o : List (String × ℚ)) (k : String) (v : ℚ) :
    (o.map (fun q => if q.1 = k then (k, v) else q)).countP (fun q => q.1 = k) =
      o.countP (fun q => q.1 = k) := by
  induction o with
  | nil => rfl
  | cons p ps ih =>
    by_cases hp : p.1 = k
    · rw [List.map_cons, if_pos hp, List.countP_cons, List.countP_cons, ih]
      simp [hp]
    · rw [List.map_cons, if_neg hp, List.countP_cons, List.countP_cons, ih]

theorem countP_objSet_self_present (o : List (String × ℚ)) (k : String) (v : ℚ)
    (hany : o.any (fun q => q.1 = k) = true) :
    (objSet o k v).countP (fun q => q.1 = k) = o.countP (fun q => q.1 = k) := by
  unfold objSet
  rw [if_pos hany]
  exact countP_mapReplace_self o k v

theorem countP_objSet_self_absent (o : List (String × ℚ)) (k : String) (v : ℚ)
    (hany : o.any (fun q => q.1 = k) = false) :
    (objSet o k v).countP (fun q => q.1 = k) = 1 := by
  unfold objSet
  rw [if_neg (by simp [hany])]
  rw [List.countP_append]
  have h0 : o.countP (fun q => q.1 = k) = 0 := by
    apply List.countP_eq_zero.mpr
    intro q hq
    simp only [List.any_eq_false] at hany
    exact hany q hq
  rw [h0]
  simp [List.countP_cons]

theorem countP_mapReplace_other (o : List (String × ℚ)) (k n : String) (v : ℚ)
    (hnk : n ≠ k) :
    (o.map (fun q => if q.1 = k then (k, v) else q)).countP (fun q => q.1 = n) =
      o.countP (fun q => q.1 = n) := by
  induction o with
  | nil => rfl
  | cons p ps ih =>
    by_cases hp : p.1 = k
    · rw [List.map_cons, if_pos hp, List.countP_cons, List.countP_cons, ih]
      simp [hp, Ne.symm hnk]
    · rw [List.map_cons, if_neg hp, List.countP_cons, List.countP_cons, ih]

theorem countP_objSet_other (o : List (String × ℚ)) (k n : String) (v : ℚ)
    (hnk : n ≠ k) :
    (objSet o k v).countP (fun q => q.1 = n) = o.countP (fun q => q.1 = n) := by
  unfold objSet
  split
  · exact countP_mapReplace_other o k n v hnk
  · rw [List.countP_append]
    simp [List.countP_cons, Ne.symm hnk]

theorem pointFields_wf (ms : List LongRow) (k : String) :
    (pointFields ms).countP (fun q => q.1 = k) ≤ 1 := by
  induction ms using List.reverseRecOn with
  | nil => simp [pointFields]
  | append_singleton ms m ih =>
    have hfold : pointFields (ms ++ [m]) =
        objSet (pointFields ms) m.measureName m.measureValue := by
      unfold pointFields
      rw [List.foldl_append]
      rfl
    rw [hfold]
    by_cases hk : k = m.measureName
    · rw [hk]
      cases hany : (pointFields ms).any (fun q => q.1 = m.measureName) with
      | true =>
        rw [countP_objSet_self_present _ _ _ hany]
        exact hk ▸ ih
      | false => rw [countP_objSet_self_absent _ _ _ hany]
    · rw [countP_objSet_other _ _ _ _ hk]
      exact ih

theorem pointFields_lww (ms : List LongRow) (n : String)
    (h : ms.filter (fun r => r.measureName = n) ≠ []) :
    (pointFields ms).countP (fun q => q.1 = n) = 1 ∧
      (pointFields ms).find? (fun q => q.1 = n) =
        some (n, ((ms.filter (fun r => r.measureName = n)).getLast h).measureValue) := by
  induction ms using List.reverseRecOn with
  | nil => simp at h
  | append_singleton ms m ih =>
    have hfold : pointFields (ms ++ [m]) =
        objSet (pointFields ms) m.measureName m.measureValue := by
      unfold pointFields
      rw [List.foldl_append]
      rfl
    by_cases hm : m.measureName = n
    · -- the appended row writes the field `n`: it wins
      have hfilter : (ms ++ [m]).filter (fun r => r.measureName = n) =
          ms.filter (fun r => r.measureName = n) ++ [m] := by
        rw [List.filter_append]
        simp [List.filter, hm]
      constructor
      · rw [hfold, ← hm]
        cases hany : (pointFields ms).any (fun q => q.1 = m.measureName) with
        | true =>
          rw [countP_objSet_self_present _ _ _ hany]
          have hpos : 0 < (pointFields ms).countP (fun q => q.1 = m.measureName) := by
            apply List.countP_pos_iff.mpr
            rcases List.any_eq_true.mp hany with ⟨q, hq, hqk⟩
            exact ⟨q, hq, hqk⟩
          have := pointFields_wf ms m.measureName
          omega
        | false => rw [countP_objSet_self_absent _ _ _ hany]
      · have hm2 : objSet (pointFields ms) m.measureName m.measureValue =
            objSet (pointFields ms) n m.measureValue := by rw [hm]
        rw [hfold, hm2, find?_objSet_self]
        have hlast : ((ms ++ [m]).filter (fun r => r.measureName = n)).getLast h = m := by
          rw [List.getLast_congr _ (by simp) hfilter]
          exact List.getLast_append_singleton _
        rw [hlast]
    · -- the appended row writes a different field: nothing changes for `n`
      have hfilter : (ms ++ [m]).filter (fun r => r.measureName = n) =
          ms.filter (fun r => r.measureName = n) := by
        rw [List.filter_append]
        simp [List.filter, hm]
      have hne : ms.filter (fun r => r.measureName = n) ≠ [] := by
        intro hcon
        apply h
        rw [hfilter, hcon]
      obtain ⟨ihc, ihf⟩ := ih hne
      constructor
      · rw [hfold, countP_objSet_other _ _ _ _ (fun hc => hm hc.symm)]
        exact ihc
      · rw [hfold, find?_objSet_other _ _ _ _ (fun hc => hm hc.symm), ihf]
        congr 1
        congr 1
        rw [List.getLast_congr _ _ hfilter]

/-- **C8.**  Last-write-wins: for any long-shape input and any
`(deviceId, Time)` pair whose group contains at least one row with measure
name `n`, the pivoted TimeSeriesPoint carries **exactly one** field named `n`,
and its value is the `measure_value` of the row with that name processed last
in input order. -/
theorem C8_last_write_wins (rows : List LongRow) (d t n : String)
    (h : (groupRows rows d t).filter (fun r => r.measureName = n) ≠ []) :
    (pointFields (groupRows rows d t)).countP (fun q => q.1 = n) = 1 ∧
      (pointFields (groupRows rows d t)).find? (fun q => q.1 = n) =
        some (n,
          (((groupRows rows d t).filter (fun r => r.measureName = n)).getLast h).measureValue) :=
  pointFields_lww (groupRows rows d t) n h

/-- The two-row last-write-wins scenario: identical `(deviceId, Time,
measure_name)`, differing `measure_value`. -/
def c8rows : List LongRow :=
  [⟨"B1", "T1", "m", 1⟩, ⟨"B1", "T1", "m", 2⟩]

/-- Witness for C8 at the two-row scenario: one field, carrying the value of the second row. -/
theorem C8_last_write_wins_witness :
    (pointFields (groupRows c8rows "B1" "T1")).countP (fun q => q.1 = "m") = 1 ∧
      (pointFields (groupRows c8rows "B1" "T1")).find? (fun q => q.1 = "m") =
        some ("m", 2) := by
  have h : (groupRows c8rows "B1" "T1").filter (fun r => r.measureName = "m") ≠ [] := by
    decide
  obtain ⟨h1, h2⟩ := C8_last_write_wins c8rows "B1" "T1" "m" h
  refine ⟨h1, ?_⟩
  have hfeq : (groupRows c8rows "B1" "T1").filter (fun r => r.measureName = "m") =
      c8rows := by decide
  rw [h2, List.getLast_congr _ (by simp [c8rows]) hfeq]
  rfl

/-- Witness for the amended C5 at the concrete scenario input. -/
theorem C5_missing_columns_witness :
    processCSVDataP1 (parseCSVtext csv5Text) statePrev =
        errState statePrev ("Missing required columns: " ++
          String.intercalate ", " (missingColumnsOf (parseCSVtext csv5Text))) ∧
      (processCSVDataP1 (parseCSVtext csv5Text) statePrev).errorMessage =
        "Missing required columns: " ++
          String.intercalate ", " (missingColumnsOf (parseCSVtext csv5Text)) ∧
      (processCSVDataP1 (parseCSVtext csv5Text) statePrev).data = [] ∧
      (processCSVDataP1 (parseCSVtext csv5Text) statePrev).originalData = [] :=
  C5_missing_columns (parseCSVtext csv5Text) statePrev (by decide) (by decide)

/-! ## Device selection in the long-shape dashboards (C10) -/

/-- One pivoted per-device dataset (`processed[deviceId]`). -/
structure DeviceData where
  deviceId : String
  timeSeries : List TSPoint
  cycleSummaries : List TSPoint
  realTimeData : List TSPoint
deriving DecidableEq, Repr

/-- The pivoted mapping from device id to dataset, as an insertion-ordered
association list (a JavaScript object; `Object.values(...)[0]` is the value
of the first entry). -/
abbrev ProcessedData := List (String × DeviceData)

/-- `processedData[selectedDevice]` lookup. -/
def lookupDevice (pd : ProcessedData) (sel : String) : Option DeviceData :=
  (pd.find? (fun e => e.1 = sel)).map (·.2)

/-- `currentDevice` of `src/Dashboard.js` (lines 2188–2193): when the
selector is the string all or the selected id is absent, fall back to
`Object.values(processedData)[0]` — the first device. -/
def currentDeviceD (pd : ProcessedData) (sel : String) : Option DeviceData :=
  if sel = "all" ∨ lookupDevice pd sel = none then pd.head?.map (·.2)
  else lookupDevice pd sel

/-- `currentDevice` of `src/TimeSeriesDashboard.js` (lines 527–529): always
`Object.values(processedData)[0]`, regardless of any selector. -/
def currentDeviceTS (pd : ProcessedData) : Option DeviceData :=
  pd.head?.map (·.2)

/-- `filteredCycles`: `currentDevice?.cycleSummaries` filtered, `[]` when
there is no current device. -/
def filteredCyclesOf (pd : ProcessedData) (sel : String)
    (dr : Option (Int × Int)) (tr : String) : List TSPoint :=
  match currentDeviceD pd sel with
  | none => []
  | some dev => applyFiltersL dev.cycleSummaries dr tr

/-- `filteredRealTime`: `currentDevice?.realTimeData` filtered. -/
def filteredRealTimeOf (pd : ProcessedData) (sel : String)
    (dr : Option (Int × Int)) (tr : String) : List TSPoint :=
  match currentDeviceD pd sel with
  | none => []
  | some dev => applyFiltersL dev.realTimeData dr tr

/-- The `fleetKPIs` value the long dashboard displays. -/
def displayedKPIs (pd : ProcessedData) (sel : String) (dr : Option (Int × Int))
    (tr : String) (th : Thresholds) : Option FleetL :=
  calculateFleetKPIs (filteredCyclesOf pd sel dr tr)
    (filteredRealTimeOf pd sel dr tr) th

/-- The `cycleMetrics` value the long dashboard displays. -/
def displayedCycleMetrics (pd : ProcessedData) (sel : String)
    (dr : Option (Int × Int)) (tr : String) : CycleMetricsD :=
  calculateCycleMetricsD (filteredCyclesOf pd sel dr tr)

/-- The `utilizationHeatmap` value the long dashboard displays. -/
def displayedHeatmap (pd : ProcessedData) (sel : String)
    (dr : Option (Int × Int)) (tr : String) : List HeatCell :=
  heatmapArrayL (filteredRealTimeOf pd sel dr tr)

/-- The `lifetimeMetrics` value the long dashboard displays
(`currentDevice?.cycleSummaries || []`, unfiltered). -/
def displayedLifetime (pd : ProcessedData) (sel : String) (th : Thresholds) :
    LifetimeMetrics :=
  calculateLifetimeMetrics
    (match currentDeviceD pd sel with
      | none => []
      | some dev => dev.cycleSummaries) th

/-- **C10.**  In the long-shape dashboards, when the device selector is
the string all (or names a device absent from the pivoted mapping) every displayed
metric is computed from the first device of the mapping only: the current
device is the first entry, the TimeSeriesDashboard always uses the first
entry, and any two mappings with the same first entry display identical
metrics — the measurements of the other devices are excluded from them all. -/
theorem C10_first_device_only :
    (∀ (pd : ProcessedData) (sel : String),
      (sel = "all" ∨ lookupDevice pd sel = none) →
        currentDeviceD pd sel = pd.head?.map (·.2)) ∧
    (∀ pd : ProcessedData, currentDeviceTS pd = pd.head?.map (·.2)) ∧
    (∀ (pd₁ pd₂ : ProcessedData) (sel : String) (dr : Option (Int × Int))
        (tr : String) (th : Thresholds),
      (sel = "all" ∨ lookupDevice pd₁ sel = none) →
      (sel = "all" ∨ lookupDevice pd₂ sel = none) →
      pd₁.head? = pd₂.head? →
        displayedKPIs pd₁ sel dr tr th = displayedKPIs pd₂ sel dr tr th ∧
        displayedCycleMetrics pd₁ sel dr tr = displayedCycleMetrics pd₂ sel dr tr ∧
        displayedHeatmap pd₁ sel dr tr = displayedHeatmap pd₂ sel dr tr ∧
        displayedLifetime pd₁ sel th = displayedLifetime pd₂ sel th) := by
  have hcur : ∀ (pd : ProcessedData) (sel : String),
      (sel = "all" ∨ lookupDevice pd sel = none) →
      currentDeviceD pd sel = pd.head?.map (·.2) := by
    intro pd sel h
    unfold currentDeviceD
    rw [if_pos h]
  refine ⟨hcur, fun pd => rfl, ?_⟩
  intro pd₁ pd₂ sel dr tr th h1 h2 hhead
  have hc : currentDeviceD pd₁ sel = currentDeviceD pd₂ sel := by
    rw [hcur pd₁ sel h1, hcur pd₂ sel h2, hhead]
  refine ⟨?_, ?_, ?_, ?_⟩ <;>
    simp only [displayedKPIs, displayedCycleMetrics, displayedHeatmap,
      displayedLifetime, filteredCyclesOf, filteredRealTimeOf, hc]

/-- A second device whose data would change every metric if it were
included. -/
def deviceB : DeviceData :=
  { deviceId := "B2"
    timeSeries := [{ TSPoint.at 7200000 with durationS := some 60 }]
    cycleSummaries := [{ TSPoint.at 7200000 with durationS := some 60 }]
    realTimeData := [{ TSPoint.at 7200000 with diKM := some 1 }] }

/-- The first device of the witness mapping. -/
def deviceA : DeviceData :=
  { deviceId := "B1"
    timeSeries := [{ TSPoint.at 0 with durationS := some 30 }]
    cycleSummaries := [{ TSPoint.at 0 with durationS := some 30 }]
    realTimeData := [{ TSPoint.at 0 with diKM := some 1 }] }

/-- Witness for C10: with the selector on the string all, a two-device mapping and
its first-device-only restriction display identical metrics. -/
theorem C10_first_device_only_witness :
    currentDeviceD [("B1", deviceA), ("B2", deviceB)] "all" =
        ([("B1", deviceA), ("B2", deviceB)] : ProcessedData).head?.map (·.2) ∧
      displayedKPIs [("B1", deviceA), ("B2", deviceB)] "all" none "all"
          defaultThresholds =
        displayedKPIs [("B1", deviceA)] "all" none "all" defaultThresholds ∧
      displayedCycleMetrics [("B1", deviceA), ("B2", deviceB)] "all" none "all" =
        displayedCycleMetrics [("B1", deviceA)] "all" none "all" ∧
      displayedHeatmap [("B1", deviceA), ("B2", deviceB)] "all" none "all" =
        displayedHeatmap [("B1", deviceA)] "all" none "all" ∧
      displayedLifetime [("B1", deviceA), ("B2", deviceB)] "all" defaultThresholds =
        displayedLifetime [("B1", deviceA)] "all" defaultThresholds := by
  have h := C10_first_device_only
  refine ⟨h.1 _ "all" (Or.inl rfl), ?_⟩
  exact h.2.2 [("B1", deviceA), ("B2", deviceB)] [("B1", deviceA)] "all" none
    "all" defaultThresholds (Or.inl rfl) (Or.inl rfl) rfl

end Dash
